import Mathlib

/-!
Verification development for the riscv-emulator repository (RV64IM simulator
with a single-cycle core and a five-stage in-order pipelined core).

The Rust sources are shallowly embedded: 64-bit machine words are `Nat`
values kept below `2^64` with explicit `% 2^64` wherever the Rust code uses
wrapping arithmetic, fallible Rust code (`Result`, panics) becomes `Except`
or `Option`, and the mutable CPU state becomes explicit state records
threaded through step functions.
-/

namespace RVE

/-- Modulus of the 64-bit machine word. -/
def M64 : Nat := 2 ^ 64

/-- Modulus of a 32-bit word. -/
def M32 : Nat := 2 ^ 32

/-- Reinterpret a `u64` bit pattern as a signed `i64` value (two's complement). -/
def toI64 (x : Nat) : Int :=
  if x < 2 ^ 63 then (x : Int) else (x : Int) - (2 ^ 64 : Int)

/-- Reinterpret a (mathematical) integer as a `u64` bit pattern. -/
def ofI64 (z : Int) : Nat :=
  (z % (2 ^ 64 : Int)).toNat

/-- Embeds `core/insts.rs::sext`: sign-extend the low `w` bits of `imm` to 64
bits, returned as the `u64` bit pattern of the Rust `i64` result. -/
def sext (imm : Nat) (w : Nat) : Nat :=
  let low := imm % 2 ^ w
  if imm / 2 ^ (w - 1) % 2 = 1 then low + (2 ^ 64 - 2 ^ w) else low

/-- Embeds `core/insts.rs::trunc_to_32_bit`. -/
def trunc_to_32_bit (x : Nat) : Nat := x % 2 ^ 32

/-- Embeds `core/insts.rs::trunc_to_16_bit`. -/
def trunc_to_16_bit (x : Nat) : Nat := x % 2 ^ 16

/-- Embeds `core/insts.rs::trunc_to_8_bit`. -/
def trunc_to_8_bit (x : Nat) : Nat := x % 2 ^ 8

/-- Embeds `core/insts.rs::trunc_to_6_bit`. -/
def trunc_to_6_bit (x : Nat) : Nat := x % 2 ^ 6

/-- Embeds `core/insts.rs::trunc_to_5_bit`. -/
def trunc_to_5_bit (x : Nat) : Nat := x % 2 ^ 5

/-- Embeds `core/insts.rs::trunc_to_5_bit_and_check`: the 5-bit truncation
together with the legality bit (true when bit 5 of `x` is clear). -/
def trunc_to_5_bit_and_check (x : Nat) : Nat × Bool :=
  (x % 2 ^ 5, decide (x / 2 ^ 5 % 2 = 0))

/-- Embeds `core/insts.rs::get_high_64_bit`: high 64 bits of a `u128`. -/
def get_high_64_bit (x : Nat) : Nat := x % 2 ^ 128 / 2 ^ 64

/-- Wrapping 64-bit addition (`u64::wrapping_add`). -/
def wadd (a b : Nat) : Nat := (a + b) % M64

/-- Wrapping 64-bit subtraction (`u64::wrapping_sub`). -/
def wsub (a b : Nat) : Nat := (a + (M64 - b % M64)) % M64

/-- Wrapping 64-bit multiplication (`u64::wrapping_mul`). -/
def wmul (a b : Nat) : Nat := a * b % M64

/-- Signed 64-bit division (`i64::wrapping_div` on bit patterns; the caller
guards against a zero divisor).  Rust truncates toward zero. -/
def sdiv64 (a b : Nat) : Nat := ofI64 ((toI64 a).tdiv (toI64 b))

/-- Signed 64-bit remainder (`i64::wrapping_rem` on bit patterns). -/
def srem64 (a b : Nat) : Nat := ofI64 ((toI64 a).tmod (toI64 b))

/-- Signed 32-bit division used by `divw` (`i32::wrapping_div` on the low
32-bit patterns), returned as the `u32` bit pattern. -/
def toI32 (x : Nat) : Int :=
  if x % 2 ^ 32 < 2 ^ 31 then ((x % 2 ^ 32 : Nat) : Int)
  else ((x % 2 ^ 32 : Nat) : Int) - (2 ^ 32 : Int)

/-- Reinterpret an integer as a `u32` bit pattern. -/
def ofI32 (z : Int) : Nat := (z % (2 ^ 32 : Int)).toNat

/-- Logical right shift on a `u64` (`u64::wrapping_shr` after masking). -/
def lshr64 (a sh : Nat) : Nat := a % M64 / 2 ^ sh

/-- Arithmetic right shift on an `i64` bit pattern (Rust `i64 >>`). -/
def ashr64 (a sh : Nat) : Nat := ofI64 ((toI64 a).fdiv (2 ^ sh))

/-- Left shift with 64-bit wrap (`u64::wrapping_shl` after masking). -/
def shl64 (a sh : Nat) : Nat := a * 2 ^ sh % M64

/-- The RV64IM opcode enumeration, embedding `core/insts.rs::Inst64`. -/
inductive Inst64 where
  | noop
  | add | addi | addiw | addw | and | andi | auipc
  | beq | bge | bgeu | blt | bltu | bne
  | csrrc | csrrci | csrrs | csrrsi | csrrw | csrrwi
  | div | divu | divuw | divw
  | ebreak | ecall
  | fence | fence_i
  | jal | jalr
  | lb | lbu | ld | lh | lhu | lui | lw | lwu
  | mret
  | mul | mulh | mulhsu | mulhu | mulw
  | or | ori
  | rem | remu | remuw | remw
  | sb | sd | sh
  | sll | slli | slliw | sllw
  | slt | slti | sltiu | sltu
  | sra | srai | sraiw | sraw
  | sret
  | srl | srli | srliw | srlw
  | sub | subw | sw
  | wfi
  | xor | xori
  deriving DecidableEq, Repr

/-- Embeds `core/insts.rs::opcode` (low 7 bits of the instruction word). -/
def opcode (inst : Nat) : Nat := inst % 2 ^ 7

/-- Embeds `core/insts.rs::rd` (bits 7..11). -/
def rd_field (inst : Nat) : Nat := inst / 2 ^ 7 % 2 ^ 5

/-- Embeds `core/insts.rs::rs1` (bits 15..19). -/
def rs1_field (inst : Nat) : Nat := inst / 2 ^ 15 % 2 ^ 5

/-- Embeds `core/insts.rs::rs2` (bits 20..24). -/
def rs2_field (inst : Nat) : Nat := inst / 2 ^ 20 % 2 ^ 5

/-- Embeds `core/insts.rs::rs3` (bits 27..31). -/
def rs3_field (inst : Nat) : Nat := inst / 2 ^ 27 % 2 ^ 5

/-- Embeds `core/insts.rs::funct3` (bits 12..14). -/
def funct3 (inst : Nat) : Nat := inst / 2 ^ 12 % 2 ^ 3

/-- Embeds `core/insts.rs::funct7` (bits 25..31). -/
def funct7 (inst : Nat) : Nat := inst / 2 ^ 25 % 2 ^ 7

/-- Embeds `core/insts.rs::funct6` (bits 26..31). -/
def funct6 (inst : Nat) : Nat := inst / 2 ^ 26 % 2 ^ 6

/-- Embeds `core/insts.rs::shift64_I` (bits 20..25, the RV64 shamt). -/
def shift64_I (inst : Nat) : Nat := inst / 2 ^ 20 % 2 ^ 6

/-- Embeds `core/insts.rs::imm_I` (bits 20..31). -/
def imm_I (inst : Nat) : Nat := inst / 2 ^ 20 % 2 ^ 12

/-- Embeds `core/insts.rs::imm_S`. -/
def imm_S (inst : Nat) : Nat := funct7 inst * 2 ^ 5 + rd_field inst

/-- Embeds `core/insts.rs::imm_SB` (13-bit branch offset, bit 0 zero). -/
def imm_SB (inst : Nat) : Nat :=
  let imm_12_10_5 := funct7 inst
  let imm_4_1_11 := rd_field inst
  let imm_4_1 := imm_4_1_11 % 2 ^ 5 / 2 * 2
  let bit_11 := imm_4_1_11 % 2 * 2 ^ 11
  let bit_12 := imm_12_10_5 / 2 ^ 6 * 2 ^ 12
  let imm_10_5 := imm_12_10_5 % 2 ^ 6 * 2 ^ 5
  bit_12 + bit_11 + imm_10_5 + imm_4_1

/-- Embeds `core/insts.rs::imm_U` (bits 12..31). -/
def imm_U (inst : Nat) : Nat := inst / 2 ^ 12 % 2 ^ 20

/-- Embeds `core/insts.rs::imm_UJ` (21-bit jump offset, bit 0 zero). -/
def imm_UJ (inst : Nat) : Nat :=
  let bit_20 := inst / 2 ^ 31 % 2 * 2 ^ 20
  let imm_19_12 := inst / 2 ^ 12 % 2 ^ 8 * 2 ^ 12
  let bit_11 := inst / 2 ^ 20 % 2 * 2 ^ 11
  let imm_10_1 := inst / 2 ^ 21 % 2 ^ 10 * 2
  bit_20 + imm_19_12 + bit_11 + imm_10_1

/-- Immediate bit widths from `core/insts.rs`. -/
def I_TYPE_IMM_BITWIDTH : Nat := 12

/-- S-type immediate bit width. -/
def S_TYPE_IMM_BITWIDTH : Nat := 12

/-- B-type immediate bit width. -/
def B_TYPE_IMM_BITWIDTH : Nat := 13

/-- U-type immediate bit width. -/
def U_TYPE_IMM_BITWIDTH : Nat := 20

/-- J-type immediate bit width. -/
def J_TYPE_IMM_BITWIDTH : Nat := 21

/-!
## Flat virtual memory (`core/vm.rs`)

The Rust `VirtualMemory` owns a contiguous zero-initialised byte buffer of
`size` bytes whose origin corresponds to virtual address `ld_start`
(`min_vaddr`), and reads/writes typed values through a raw pointer cast.
On the little-endian hosts the simulator assumes, a typed access of width
`W` is an assembly/scatter of `W/8` little-endian bytes.  The buffer is
embedded as the byte function `bytes`; like the Rust pointer accesses, the
access functions perform no bounds check themselves.
-/

structure VMem where
  bytes : Nat → Nat
  ld_start : Nat
  size : Nat

/-- Read `nb` little-endian bytes starting at buffer position `pos`
(embeds `core/vm.rs::host_read` for a `nb`-byte integer type). -/
def hostReadBytes (m : Nat → Nat) (pos nb : Nat) : Nat :=
  match nb with
  | 0 => 0
  | n + 1 => m pos + hostReadBytes m (pos + 1) n * 2 ^ 8

/-- Write the `nb` little-endian bytes of `v` at buffer position `pos`
(embeds `core/vm.rs::host_write` for a `nb`-byte integer type). -/
def hostWriteBytes (m : Nat → Nat) (pos nb v : Nat) : Nat → Nat :=
  fun a => if pos ≤ a ∧ a < pos + nb then v / 2 ^ (8 * (a - pos)) % 2 ^ 8 else m a

/-- Embeds `core/vm.rs::mread` at width `w ∈ {8,16,32,64}` (w/8 bytes). -/
def mread (vm : VMem) (w : Nat) (vaddr : Nat) : Nat :=
  hostReadBytes vm.bytes (vaddr - vm.ld_start) (w / 8)

/-- Embeds `core/vm.rs::mwrite` at width `w ∈ {8,16,32,64}` (w/8 bytes). -/
def mwrite (vm : VMem) (w : Nat) (vaddr v : Nat) : VMem :=
  { vm with bytes := hostWriteBytes vm.bytes (vaddr - vm.ld_start) (w / 8) v }

/-- Embeds `core/vm.rs::fetch_inst`: a 32-bit instruction read. -/
def fetch_inst (vm : VMem) (pc : Nat) : Nat := mread vm 32 pc

/-- Modelled from the spec: `fetch_inst_pipeline`, the pipelined core's
instruction fetch, is called from `multi_stage/fetch.rs` but its definition
is not under `src/` (only `fetch_inst` is).  Per spec section 2, the flat
memory provides instruction fetch from the contiguous buffer at base
`min_vaddr`; it is modelled as the plain 32-bit read `fetch_inst`. -/
def fetch_inst_pipeline (vm : VMem) (pc : Nat) : Nat := fetch_inst vm pc

/-!
## Control flags and pipeline latches (`multi_stage/ctrl_flags.rs`,
`multi_stage/phases.rs`)
-/

inductive SextType where
  | none | i | s | b | u | j
  deriving DecidableEq, Repr

structure DecodeFlags where
  sext : SextType
  deriving DecidableEq, Repr

structure BranchFlags where
  branch : Bool
  pc_src : Bool
  predicted_src : Bool
  predicted_target : Nat
  deriving DecidableEq, Repr

structure ExecFlags where
  alu_op : Inst64
  alu_src : Bool
  deriving DecidableEq, Repr

structure MemFlags where
  mem_read : Bool
  mem_write : Bool
  deriving DecidableEq, Repr

structure WbFlags where
  mem_to_reg : Bool
  deriving DecidableEq, Repr

/-- The IF/ID latch, embedding `phases.rs::InternalFetchDecode`. -/
structure IFD where
  raw_inst : Nat
  decode_flags : DecodeFlags
  exec_flags : ExecFlags
  mem_flags : MemFlags
  wb_flags : WbFlags
  branch_flags : BranchFlags
  pc : Nat
  rs1 : Nat
  rs2 : Nat
  rs3 : Nat
  rd : Nat
  imm : Nat
  deriving DecidableEq, Repr

/-- The ID/EX latch, embedding `phases.rs::InternalDecodeExec`. -/
structure IDE where
  raw_inst : Nat
  exec_flags : ExecFlags
  mem_flags : MemFlags
  wb_flags : WbFlags
  branch_flags : BranchFlags
  pc : Nat
  rs1 : Nat
  rs2 : Nat
  rs3 : Nat
  rd : Nat
  src1 : Nat
  src2 : Nat
  imm : Nat
  forward_a : Nat
  forward_b : Nat
  ex_mem_forward : Nat
  mem_wb_forward : Nat
  deriving DecidableEq, Repr

/-- The EX/MEM latch, embedding `phases.rs::InternalExecMem`. -/
structure IEM where
  raw_inst : Nat
  mem_flags : MemFlags
  wb_flags : WbFlags
  branch_flags : BranchFlags
  pc : Nat
  rs1 : Nat
  rs2 : Nat
  rs3 : Nat
  rd : Nat
  imm : Nat
  alu_out : Nat
  mem_addr : Nat
  mem_bitwidth : Nat
  mem_sext_to : Nat
  m2m_forward : Bool
  m2m_forward_val : Nat
  alu_op : Inst64
  deriving DecidableEq, Repr

/-- Embeds `InternalExecMem::is_call`. -/
def IEM.is_call (l : IEM) : Bool := l.alu_op = Inst64.jal ∧ l.rd = 1

/-- Embeds `InternalExecMem::is_ret`. -/
def IEM.is_ret (l : IEM) : Bool := l.raw_inst = 0x00008067

/-- The MEM/WB latch, embedding `phases.rs::InternalMemWb`. -/
structure IMW where
  raw_inst : Nat
  wb_flags : WbFlags
  branch_flags : BranchFlags
  mem_read : Bool
  pc : Nat
  rs1 : Nat
  rs2 : Nat
  rs3 : Nat
  rd : Nat
  imm : Nat
  regval : Nat
  alu_op : Inst64
  deriving DecidableEq, Repr

/-- Default IF/ID latch (`Default for InternalFetchDecode`): a noop bubble. -/
def IFD.default : IFD :=
  { raw_inst := 0
    decode_flags := { sext := .none }
    exec_flags := { alu_op := .noop, alu_src := false }
    mem_flags := { mem_read := false, mem_write := false }
    wb_flags := { mem_to_reg := false }
    branch_flags :=
      { branch := false, pc_src := false, predicted_src := false, predicted_target := 0 }
    pc := 0, rs1 := 0, rs2 := 0, rs3 := 0, rd := 0, imm := 0 }

/-- Default ID/EX latch (`Default for InternalDecodeExec`). -/
def IDE.default : IDE :=
  { raw_inst := 0
    exec_flags := { alu_op := .noop, alu_src := false }
    mem_flags := { mem_read := false, mem_write := false }
    wb_flags := { mem_to_reg := false }
    branch_flags :=
      { branch := false, pc_src := false, predicted_src := false, predicted_target := 0 }
    pc := 0, rs1 := 0, rs2 := 0, rs3 := 0, rd := 0
    src1 := 0, src2 := 0, imm := 0
    forward_a := 0, forward_b := 0, ex_mem_forward := 0, mem_wb_forward := 0 }

/-- Default EX/MEM latch (`Default for InternalExecMem`). -/
def IEM.default : IEM :=
  { raw_inst := 0
    mem_flags := { mem_read := false, mem_write := false }
    wb_flags := { mem_to_reg := false }
    branch_flags :=
      { branch := false, pc_src := false, predicted_src := false, predicted_target := 0 }
    pc := 0, rs1 := 0, rs2 := 0, rs3 := 0, rd := 0, imm := 0
    alu_out := 0, mem_addr := 0, mem_bitwidth := 0, mem_sext_to := 0
    m2m_forward := false, m2m_forward_val := 0, alu_op := .noop }

/-- Default MEM/WB latch (`Default for InternalMemWb`). -/
def IMW.default : IMW :=
  { raw_inst := 0
    wb_flags := { mem_to_reg := false }
    branch_flags :=
      { branch := false, pc_src := false, predicted_src := false, predicted_target := 0 }
    mem_read := false
    pc := 0, rs1 := 0, rs2 := 0, rs3 := 0, rd := 0, imm := 0
    regval := 0, alu_op := .noop }

/-!
## Pipelined fetch-stage instruction interpretation (`multi_stage/fetch.rs`)

Each `decode_*` function below embeds the function of the same name in
`multi_stage/fetch.rs`.  Rust `Err(Error::Decode(..))`/`Err(Error::Fetch(..))`
becomes `.error .decodeErr` / `.error .fetchErr`; the `todo!()` bodies
(`decode_store_fp` and friends) become `.error .panicked`, since a Rust
panic is not caught by the caller's `unwrap_or_else`.
-/

inductive InterpErr where
  | fetchErr
  | decodeErr
  | panicked
  deriving DecidableEq, Repr

/-- Embeds `fetch.rs::decode_load` (opcode LOAD, I type). -/
def decode_load (inst : Nat) : Except InterpErr IFD :=
  let f3 := funct3 inst
  let alu_op : Except InterpErr Inst64 :=
    if f3 = 0b000 then .ok .lb
    else if f3 = 0b001 then .ok .lh
    else if f3 = 0b010 then .ok .lw
    else if f3 = 0b011 then .ok .ld
    else if f3 = 0b100 then .ok .lbu
    else if f3 = 0b101 then .ok .lhu
    else if f3 = 0b110 then .ok .lwu
    else .error .decodeErr
  alu_op.map fun op =>
    { raw_inst := inst
      decode_flags := { sext := .i }
      exec_flags := { alu_op := op, alu_src := true }
      mem_flags := { mem_read := true, mem_write := false }
      branch_flags :=
        { branch := false, pc_src := false, predicted_src := false, predicted_target := 0 }
      wb_flags := { mem_to_reg := true }
      pc := 0, rs1 := rs1_field inst, rs2 := 0, rs3 := 0, rd := rd_field inst
      imm := imm_I inst }

/-- Embeds `fetch.rs::decode_op_imm` (opcode OP_IMM, I type; RV64 shifts use
the six-bit `shift64_I` field as the immediate). -/
def decode_op_imm (inst : Nat) : Except InterpErr IFD :=
  let f3 := funct3 inst
  let f6 := funct6 inst
  let alu_op : Except InterpErr Inst64 :=
    if f3 = 0b000 then .ok .addi
    else if f3 = 0b010 then .ok .slti
    else if f3 = 0b011 then .ok .sltiu
    else if f3 = 0b100 then .ok .xori
    else if f3 = 0b110 then .ok .ori
    else if f3 = 0b111 then .ok .andi
    else if f3 = 0b001 then .ok .slli
    else if f3 = 0b101 then
      if f6 = 0b000000 then .ok .srli
      else if f6 = 0b010000 then .ok .srai
      else .error .decodeErr
    else .error .decodeErr
  alu_op.map fun op =>
    let imm := if f3 = 0b001 ∨ f3 = 0b101 then shift64_I inst else imm_I inst
    { raw_inst := inst
      decode_flags := { sext := .i }
      exec_flags := { alu_op := op, alu_src := true }
      mem_flags := { mem_read := false, mem_write := false }
      wb_flags := { mem_to_reg := true }
      branch_flags :=
        { branch := false, pc_src := false, predicted_src := false, predicted_target := 0 }
      pc := 0, rs1 := rs1_field inst, rs2 := 0, rs3 := 0, rd := rd_field inst
      imm := imm }

/-- Embeds `fetch.rs::decode_op_auipc` (opcode AUIPC, U type). -/
def decode_op_auipc (inst : Nat) : Except InterpErr IFD :=
  .ok
    { raw_inst := inst
      decode_flags := { sext := .u }
      exec_flags := { alu_op := .auipc, alu_src := false }
      mem_flags := { mem_read := false, mem_write := false }
      wb_flags := { mem_to_reg := true }
      branch_flags :=
        { branch := false, pc_src := false, predicted_src := false, predicted_target := 0 }
      pc := 0, rs1 := 0, rs2 := 0, rs3 := 0, rd := rd_field inst
      imm := imm_U inst }

/-- Embeds `fetch.rs::decode_op_imm_32` (opcode OP_IMM_32).  Note that for
the `-W` shifts the immediate is the five-bit `rs2` field, so instruction
bit 25 never reaches the immediate. -/
def decode_op_imm_32 (inst : Nat) : Except InterpErr IFD :=
  let f3 := funct3 inst
  let f7 := funct7 inst
  let alu_op : Except InterpErr Inst64 :=
    if f3 = 0b000 then .ok .addiw
    else if f3 = 0b001 then .ok .slliw
    else if f3 = 0b101 then
      if f7 = 0b0000000 then .ok .srliw
      else if f7 = 0b0100000 then .ok .sraiw
      else .error .decodeErr
    else .error .decodeErr
  alu_op.map fun op =>
    let imm := if f3 = 0b000 then imm_I inst else rs2_field inst
    { raw_inst := inst
      decode_flags := { sext := .i }
      exec_flags := { alu_op := op, alu_src := true }
      mem_flags := { mem_read := false, mem_write := false }
      wb_flags := { mem_to_reg := true }
      branch_flags :=
        { branch := false, pc_src := false, predicted_src := false, predicted_target := 0 }
      pc := 0, rs1 := rs1_field inst, rs2 := 0, rs3 := 0, rd := rd_field inst
      imm := imm }

/-- Embeds `fetch.rs::decode_store` (opcode STORE, S type). -/
def decode_store (inst : Nat) : Except InterpErr IFD :=
  let f3 := funct3 inst
  let alu_op : Except InterpErr Inst64 :=
    if f3 = 0b000 then .ok .sb
    else if f3 = 0b001 then .ok .sh
    else if f3 = 0b010 then .ok .sw
    else if f3 = 0b011 then .ok .sd
    else .error .decodeErr
  alu_op.map fun op =>
    { raw_inst := inst
      decode_flags := { sext := .s }
      exec_flags := { alu_op := op, alu_src := true }
      mem_flags := { mem_read := false, mem_write := true }
      wb_flags := { mem_to_reg := false }
      branch_flags :=
        { branch := false, pc_src := false, predicted_src := false, predicted_target := 0 }
      pc := 0, rs1 := rs1_field inst, rs2 := rs2_field inst, rs3 := 0, rd := 0
      imm := imm_S inst }

/-- Embeds `fetch.rs::decode_op` (opcode OP, R type; RV64I plus M). -/
def decode_op (inst : Nat) : Except InterpErr IFD :=
  let f3 := funct3 inst
  let f7 := funct7 inst
  let alu_op : Except InterpErr Inst64 :=
    if f3 = 0b000 then
      if f7 = 0b0000000 then .ok .add
      else if f7 = 0b0100000 then .ok .sub
      else if f7 = 0b0000001 then .ok .mul
      else .error .decodeErr
    else if f3 = 0b001 then
      if f7 = 0b0000000 then .ok .sll
      else if f7 = 0b0000001 then .ok .mulh
      else .error .decodeErr
    else if f3 = 0b010 then
      if f7 = 0b0000000 then .ok .slt
      else if f7 = 0b0000001 then .ok .mulhsu
      else .error .decodeErr
    else if f3 = 0b011 then
      if f7 = 0b0000000 then .ok .sltu
      else if f7 = 0b0000001 then .ok .mulhu
      else .error .decodeErr
    else if f3 = 0b100 then
      if f7 = 0b0000000 then .ok .xor
      else if f7 = 0b0000001 then .ok .div
      else .error .decodeErr
    else if f3 = 0b101 then
      if f7 = 0b0000000 then .ok .srl
      else if f7 = 0b0100000 then .ok .sra
      else if f7 = 0b0000001 then .ok .divu
      else .error .decodeErr
    else if f3 = 0b110 then
      if f7 = 0b0000000 then .ok .or
      else if f7 = 0b0000001 then .ok .rem
      else .error .decodeErr
    else
      if f7 = 0b0000000 then .ok .and
      else if f7 = 0b0000001 then .ok .remu
      else .error .decodeErr
  alu_op.map fun op =>
    { raw_inst := inst
      decode_flags := { sext := .none }
      exec_flags := { alu_op := op, alu_src := false }
      mem_flags := { mem_read := false, mem_write := false }
      wb_flags := { mem_to_reg := true }
      branch_flags :=
        { branch := false, pc_src := false, predicted_src := false, predicted_target := 0 }
      pc := 0, rs1 := rs1_field inst, rs2 := rs2_field inst, rs3 := 0
      rd := rd_field inst, imm := 0 }

/-- Embeds `fetch.rs::decode_lui` (opcode LUI, U type). -/
def decode_lui (inst : Nat) : Except InterpErr IFD :=
  .ok
    { raw_inst := inst
      decode_flags := { sext := .u }
      exec_flags := { alu_op := .lui, alu_src := true }
      mem_flags := { mem_read := false, mem_write := false }
      wb_flags := { mem_to_reg := true }
      branch_flags :=
        { branch := false, pc_src := false, predicted_src := false, predicted_target := 0 }
      pc := 0, rs1 := 0, rs2 := 0, rs3 := 0, rd := rd_field inst
      imm := imm_U inst }

/-- Embeds `fetch.rs::decode_op_32` (opcode OP_32, R type). -/
def decode_op_32 (inst : Nat) : Except InterpErr IFD :=
  let f3 := funct3 inst
  let f7 := funct7 inst
  let alu_op : Except InterpErr Inst64 :=
    if f3 = 0b000 then
      if f7 = 0b0000000 then .ok .addw
      else if f7 = 0b0100000 then .ok .subw
      else if f7 = 0b0000001 then .ok .mulw
      else .error .decodeErr
    else if f3 = 0b001 then .ok .sllw
    else if f3 = 0b100 then
      if f7 = 0b0000001 then .ok .divw
      else .error .decodeErr
    else if f3 = 0b101 then
      if f7 = 0b0000000 then .ok .srlw
      else if f7 = 0b0100000 then .ok .sraw
      else if f7 = 0b0000001 then .ok .divuw
      else .error .decodeErr
    else if f3 = 0b110 then
      if f7 = 0b0000001 then .ok .remw
      else .error .decodeErr
    else if f3 = 0b111 then
      if f7 = 0b0000001 then .ok .remuw
      else .error .decodeErr
    else .error .decodeErr
  alu_op.map fun op =>
    { raw_inst := inst
      decode_flags := { sext := .none }
      exec_flags := { alu_op := op, alu_src := false }
      mem_flags := { mem_read := false, mem_write := false }
      wb_flags := { mem_to_reg := true }
      branch_flags :=
        { branch := false, pc_src := false, predicted_src := false, predicted_target := 0 }
      pc := 0, rs1 := rs1_field inst, rs2 := rs2_field inst, rs3 := 0
      rd := rd_field inst, imm := 0 }

/-- Embeds `fetch.rs::decode_branch` (opcode BRANCH, SB type). -/
def decode_branch (inst : Nat) : Except InterpErr IFD :=
  let f3 := funct3 inst
  let alu_op : Except InterpErr Inst64 :=
    if f3 = 0b000 then .ok .beq
    else if f3 = 0b001 then .ok .bne
    else if f3 = 0b100 then .ok .blt
    else if f3 = 0b101 then .ok .bge
    else if f3 = 0b110 then .ok .bltu
    else if f3 = 0b111 then .ok .bgeu
    else .error .decodeErr
  alu_op.map fun op =>
    { raw_inst := inst
      decode_flags := { sext := .b }
      exec_flags := { alu_op := op, alu_src := false }
      mem_flags := { mem_read := false, mem_write := false }
      wb_flags := { mem_to_reg := false }
      branch_flags :=
        { branch := true, pc_src := false, predicted_src := false, predicted_target := 0 }
      pc := 0, rs1 := rs1_field inst, rs2 := rs2_field inst, rs3 := 0, rd := 0
      imm := imm_SB inst }

/-- Embeds `fetch.rs::decode_jalr` (opcode JALR, I type). -/
def decode_jalr (inst : Nat) : Except InterpErr IFD :=
  if funct3 inst = 0b000 then
    .ok
      { raw_inst := inst
        decode_flags := { sext := .i }
        exec_flags := { alu_op := .jalr, alu_src := true }
        mem_flags := { mem_read := false, mem_write := false }
        wb_flags := { mem_to_reg := true }
        branch_flags :=
          { branch := true, pc_src := true, predicted_src := false, predicted_target := 0 }
        pc := 0, rs1 := rs1_field inst, rs2 := 0, rs3 := 0, rd := rd_field inst
        imm := imm_I inst }
  else .error .decodeErr

/-- Embeds `fetch.rs::decode_jal` (opcode JAL, UJ type). -/
def decode_jal (inst : Nat) : Except InterpErr IFD :=
  .ok
    { raw_inst := inst
      decode_flags := { sext := .j }
      exec_flags := { alu_op := .jal, alu_src := true }
      mem_flags := { mem_read := false, mem_write := false }
      wb_flags := { mem_to_reg := true }
      branch_flags :=
        { branch := true, pc_src := true, predicted_src := false, predicted_target := 0 }
      pc := 0, rs1 := 0, rs2 := 0, rs3 := 0, rd := rd_field inst
      imm := imm_UJ inst }

/-- Embeds `fetch.rs::decode_system` (opcode SYSTEM, I type). -/
def decode_system (inst : Nat) : Except InterpErr IFD :=
  let f3 := funct3 inst
  let csr := imm_I inst
  let alu_op : Except InterpErr Inst64 :=
    if f3 = 0b000 then
      if csr = 0 then .ok .ecall
      else if csr = 1 then .ok .ebreak
      else .error .decodeErr
    else if f3 = 0b001 then .ok .csrrw
    else if f3 = 0b010 then .ok .csrrs
    else if f3 = 0b011 then .ok .csrrc
    else if f3 = 0b101 then .ok .csrrwi
    else if f3 = 0b110 then .ok .csrrsi
    else if f3 = 0b111 then .ok .csrrci
    else .error .decodeErr
  alu_op.map fun op =>
    { raw_inst := inst
      decode_flags := { sext := .none }
      exec_flags := { alu_op := op, alu_src := false }
      mem_flags := { mem_read := false, mem_write := false }
      wb_flags := { mem_to_reg := false }
      branch_flags :=
        { branch := false, pc_src := false, predicted_src := false, predicted_target := 0 }
      pc := 0, rs1 := rs1_field inst, rs2 := 0, rs3 := 0, rd := rd_field inst
      imm := 0 }

/-- Embeds `fetch.rs::inst_interpret`: route on the 7-bit opcode, then stamp
the instruction's PC into the latch.  The opcodes whose decoders are
`todo!()` in the source (LOAD_FP, MISC_MEM, AMO, MADD, MSUB, NMSUB, NMADD,
OP_FP) return `Error::Fetch` in `inst_interpret` itself, except STORE_FP
whose decoder is called and panics. -/
def inst_interpret (pc : Nat) (inst : Nat) : Except InterpErr IFD :=
  let interpreted : Except InterpErr IFD :=
    match opcode inst with
    | 0b0000011 => decode_load inst
    | 0b0000111 => .error .fetchErr
    | 0b0001111 => .error .fetchErr
    | 0b0010011 => decode_op_imm inst
    | 0b0010111 => decode_op_auipc inst
    | 0b0011011 => decode_op_imm_32 inst
    | 0b0100011 => decode_store inst
    | 0b0100111 => .error .panicked
    | 0b0101111 => .error .fetchErr
    | 0b0110011 => decode_op inst
    | 0b0110111 => decode_lui inst
    | 0b0111011 => decode_op_32 inst
    | 0b1000011 => .error .fetchErr
    | 0b1000111 => .error .fetchErr
    | 0b1001011 => .error .fetchErr
    | 0b1001111 => .error .fetchErr
    | 0b1010011 => .error .fetchErr
    | 0b1100011 => decode_branch inst
    | 0b1100111 => decode_jalr inst
    | 0b1101111 => decode_jal inst
    | 0b1110011 => decode_system inst
    | _ => .error .fetchErr
  interpreted.map fun itl => { itl with pc := pc }

/-!
## Branch predictor state (`multi_stage/branch_predict.rs`)
-/

inductive PredictPolicy where
  | oneBitPredict
  | twoBitsPredict
  deriving DecidableEq, Repr

inductive ControlPolicy where
  | allStall
  | alwaysNotTaken
  | dynamicPredict
  deriving DecidableEq, Repr

inductive DataHazardPolicy where
  | naiveStall
  | dataForward
  deriving DecidableEq, Repr

/-- Branch history table: pc -> saturating-counter state (a `HashMap` in the
source, embedded as a partial function). -/
structure BHT where
  predict_policy : PredictPolicy
  inner : Nat → Option Nat

/-- Branch target buffer: pc -> last observed target. -/
structure BTB where
  inner : Nat → Option Nat

/-- Point update of a partial map (`HashMap::insert`). -/
def mapInsert (m : Nat → Option Nat) (k v : Nat) : Nat → Option Nat :=
  fun x => if x = k then some v else m x

/-- Embeds `BHT::init_pc_predict`: insert the policy's initial state for a
new pc and return it. -/
def BHT.init_pc_predict (b : BHT) (pc : Nat) : Nat × BHT :=
  let init := match b.predict_policy with
    | .oneBitPredict => 0
    | .twoBitsPredict => 0b01
  (init, { b with inner := mapInsert b.inner pc init })

/-- Embeds `BHT::predict` (called in the fetch phase): look the pc up,
initialising it on a miss, and read the taken/not-taken decision off the
counter state.  The source asserts the stored state is in range (< 2 for
one-bit, < 4 for two-bit); states outside the range decide not-taken here,
which the assertions make unreachable. -/
def BHT.predict (b : BHT) (pc : Nat) : Bool × BHT :=
  let (result, b1) := match b.inner pc with
    | some v => (v, b)
    | none => b.init_pc_predict pc
  match b1.predict_policy with
  | .oneBitPredict => (decide (result = 1), b1)
  | .twoBitsPredict => (decide (result = 0b10 ∨ result = 0b11), b1)

/-- Embeds `BHT::update_with_result` (called with the EX-phase outcome).
For the two-bit policy the source panics (`expect`) when the pc has not
been initialised and hits `unreachable!()` on a state outside {0,1,2,3};
both are modelled as `none`. -/
def BHT.update_with_result (b : BHT) (pc : Nat) (taken : Bool) : Option BHT :=
  match b.predict_policy with
  | .oneBitPredict =>
      some { b with inner := mapInsert b.inner pc (if taken then 1 else 0) }
  | .twoBitsPredict =>
      match b.inner pc with
      | none => none
      | some st =>
          let nst : Option Nat :=
            match st, taken with
            | 0b00, false => some 0b00
            | 0b00, true => some 0b01
            | 0b01, false => some 0b00
            | 0b01, true => some 0b11
            | 0b11, false => some 0b10
            | 0b11, true => some 0b11
            | 0b10, false => some 0b00
            | 0b10, true => some 0b11
            | _, _ => none
          nst.map fun v => { b with inner := mapInsert b.inner pc v }

/-- Embeds `BTB::query_target`. -/
def BTB.query_target (b : BTB) (pc : Nat) : Option Nat := b.inner pc

/-- Embeds `BTB::add_entry`.  The source additionally asserts that a
non-`jalr` entry never changes target; the assertion does not alter the
resulting map and is not modelled. -/
def BTB.add_entry (b : BTB) (pc target : Nat) : BTB :=
  { b with inner := mapInsert b.inner pc target }

/-- The return address stack (`RAS`), a `Vec<u64>` used LIFO: its `push` is
`List.cons` and its `pop` takes the head. -/
def RASStack := List Nat

/-- The canonical return instruction word `jalr zero, 0(ra)`. -/
def RET_PATTERN : Nat := 0x00008067

/-- Embeds `fetch.rs::branch_predict`.  The source is only invoked when the
control policy is DynamicPredict (`fetch` guards the call), so only that
arm of its policy match is embedded; the AllStall arm is `unimplemented!()`
and the AlwaysNotTaken arm is dead code.  Returns the updated latch, BHT
and RAS. -/
def branch_predict (itl : IFD) (bht : BHT) (btb : BTB) (ras : List Nat) :
    IFD × BHT × List Nat :=
  let op := itl.exec_flags.alu_op
  let next_inst_is_control :=
    op = .beq ∨ op = .bne ∨ op = .blt ∨ op = .bge ∨ op = .bltu ∨ op = .bgeu ∨
    op = .jal ∨ op = .jalr
  if next_inst_is_control then
    let target? := btb.query_target itl.pc
    let (predicted_src, bht1) := bht.predict itl.pc
    match target? with
    | some target =>
        if op = .jalr then
          let is_ret := itl.raw_inst = RET_PATTERN
          if is_ret then
            match ras with
            | ras_top :: rest =>
                ({ itl with branch_flags :=
                    { itl.branch_flags with predicted_src := true, predicted_target := ras_top } },
                 bht1, rest)
            | [] =>
                ({ itl with branch_flags :=
                    { itl.branch_flags with predicted_src := true, predicted_target := itl.pc } },
                 bht1, [])
          else
            ({ itl with branch_flags :=
                { itl.branch_flags with predicted_src := true, predicted_target := target } },
             bht1, ras)
        else if op = .jal then
          ({ itl with branch_flags :=
              { itl.branch_flags with predicted_src := true, predicted_target := target } },
           bht1, ras)
        else
          ({ itl with branch_flags :=
              { itl.branch_flags with predicted_src := predicted_src, predicted_target := target } },
           bht1, ras)
    | none =>
        ({ itl with branch_flags := { itl.branch_flags with predicted_src := false } },
         bht1, ras)
  else
    ({ itl with branch_flags :=
        { itl.branch_flags with predicted_src := false, predicted_target := 0 } },
     bht, ras)

/-- Embeds `fetch.rs::fetch`: fetch the word at the PC, interpret it
(falling back to the default noop latch on an interpretation error), and
consult the branch predictor when the control policy is DynamicPredict. -/
def fetchStage (cp : ControlPolicy) (vm : VMem) (pc : Nat) (bht : BHT) (btb : BTB)
    (ras : List Nat) : IFD × BHT × List Nat :=
  match inst_interpret pc (fetch_inst_pipeline vm pc) with
  | .error _ => (IFD.default, bht, ras)
  | .ok itl =>
      if cp = .dynamicPredict then branch_predict itl bht btb ras
      else (itl, bht, ras)

/-!
## Decode stage (`multi_stage/decode.rs`)
-/

/-- Point update of a total register map (`RegisterFile::write`). -/
def updFn (f : Nat → Nat) (i v : Nat) : Nat → Nat :=
  fun a => if a = i then v else f a

/-- Embeds `decode.rs::decode`: read the two source registers and apply the
format-specific sign extension recorded in the decode flags. -/
def decodeStage (regs : Nat → Nat) (itl : IFD) : IDE :=
  let src1 := regs itl.rs1
  let src2 := regs itl.rs2
  let imm := match itl.decode_flags.sext with
    | .none => itl.imm
    | .i => sext itl.imm I_TYPE_IMM_BITWIDTH
    | .s => sext itl.imm S_TYPE_IMM_BITWIDTH
    | .b => sext itl.imm B_TYPE_IMM_BITWIDTH
    | .j => sext itl.imm J_TYPE_IMM_BITWIDTH
    | .u => sext itl.imm U_TYPE_IMM_BITWIDTH
  { raw_inst := itl.raw_inst
    exec_flags := itl.exec_flags
    mem_flags := itl.mem_flags
    wb_flags := itl.wb_flags
    branch_flags := itl.branch_flags
    pc := itl.pc
    rs1 := itl.rs1, rs2 := itl.rs2, rs3 := itl.rs3, rd := itl.rd
    src1 := src1, src2 := src2, imm := imm
    forward_a := 0, forward_b := 0, ex_mem_forward := 0, mem_wb_forward := 0 }

/-!
## Execute stage (`multi_stage/exec.rs`)
-/

/-- Execute-stage failures: the `DividedByZero` and `IllegalInstruction`
exceptions, and Rust panics (`todo!()` for ecall, `unimplemented!()` for
CSR instructions, and an arithmetic divide-by-zero panic reachable in the
`remw`/`remuw` arms). -/
inductive ExErr where
  | dividedByZero
  | illegalInstruction
  | panicked
  deriving DecidableEq, Repr

/-- Reinterpret an integer as a `u128` bit pattern. -/
def ofI128 (z : Int) : Nat := (z % (2 ^ 128 : Int)).toNat

/-- Embeds `exec.rs::exec`.  The call-stack tracer hooks (`callstack.call`
/ `callstack.ret`) are purely observational (spec section 4.8) and are not
modelled.  The source omits `raw_inst` when building the EX/MEM latch (the
struct literal in the snapshot predates the field); it is propagated from
the ID/EX latch, which is what its reader `InternalExecMem::is_ret`
requires.  Returns `(latch, ex_branch, pc_src, new_pc_0, new_pc_1)`. -/
def exec (d : IDE) : Except ExErr (IEM × Bool × Bool × Nat × Nat) :=
  let src1 :=
    if d.forward_a = 0 then d.src1
    else if d.forward_a = 0b10 then d.ex_mem_forward
    else if d.forward_a = 0b01 then d.mem_wb_forward
    else d.src1
  let src2 :=
    if d.forward_b = 0 then d.src2
    else if d.forward_b = 0b10 then d.ex_mem_forward
    else if d.forward_b = 0b01 then d.mem_wb_forward
    else d.src2
  let imm := d.imm
  let pc := d.pc
  let ex_branch := d.branch_flags.branch
  let pc_src0 := d.branch_flags.pc_src
  let new_pc_0 := wadd pc 4
  let mem_bitwidth : Nat := match d.exec_flags.alu_op with
    | .lb | .lbu | .sb => 8
    | .lh | .lhu | .sh => 16
    | .lw | .lwu | .sw => 32
    | .ld | .sd => 64
    | _ => 0
  let mem_sext_to : Nat := match d.exec_flags.alu_op with
    | .lb => 8
    | .lh => 16
    | .lw => 32
    | _ => 0
  let arm : Except ExErr (Nat × Nat × Bool × Nat) :=
    match d.exec_flags.alu_op with
    | .noop => .ok (0, 0, pc_src0, wadd pc 4)
    | .auipc => .ok (wadd pc (shl64 imm 12), 0, pc_src0, wadd pc 4)
    | .lui => .ok (shl64 imm 12 / 2 ^ 12 * 2 ^ 12, 0, pc_src0, wadd pc 4)
    | .lb | .lh | .lw | .ld | .lbu | .lhu | .lwu =>
        .ok (0, wadd src1 imm, pc_src0, wadd pc 4)
    | .sb => .ok (trunc_to_8_bit src2, wadd src1 imm, pc_src0, wadd pc 4)
    | .sh => .ok (trunc_to_16_bit src2, wadd src1 imm, pc_src0, wadd pc 4)
    | .sw => .ok (trunc_to_32_bit src2, wadd src1 imm, pc_src0, wadd pc 4)
    | .sd => .ok (src2, wadd src1 imm, pc_src0, wadd pc 4)
    | .jal => .ok (new_pc_0, 0, true, wadd pc imm)
    | .jalr => .ok (new_pc_0, 0, true, wadd src1 imm / 2 * 2)
    | .beq =>
        if src1 = src2 then .ok (0, 0, true, wadd pc imm)
        else .ok (0, 0, false, wadd pc 4)
    | .bge =>
        if toI64 src1 ≥ toI64 src2 then .ok (0, 0, true, wadd pc imm)
        else .ok (0, 0, pc_src0, wadd pc 4)
    | .bgeu =>
        if src1 ≥ src2 then .ok (0, 0, true, wadd pc imm)
        else .ok (0, 0, pc_src0, wadd pc 4)
    | .blt =>
        if toI64 src1 < toI64 src2 then .ok (0, 0, true, wadd pc imm)
        else .ok (0, 0, pc_src0, wadd pc 4)
    | .bltu =>
        if src1 < src2 then .ok (0, 0, true, wadd pc imm)
        else .ok (0, 0, pc_src0, wadd pc 4)
    | .bne =>
        if src1 ≠ src2 then .ok (0, 0, true, wadd pc imm)
        else .ok (0, 0, pc_src0, wadd pc 4)
    | .ecall => .error .panicked
    | .ebreak => .ok (0, 0, pc_src0, wadd pc 4)
    | .add => .ok (wadd src1 src2, 0, pc_src0, wadd pc 4)
    | .addi => .ok (wadd src1 imm, 0, pc_src0, wadd pc 4)
    | .addiw => .ok (sext (trunc_to_32_bit (wadd src1 imm)) 32, 0, pc_src0, wadd pc 4)
    | .addw => .ok (sext (trunc_to_32_bit (wadd src1 src2)) 32, 0, pc_src0, wadd pc 4)
    | .sub => .ok (wsub src1 src2, 0, pc_src0, wadd pc 4)
    | .subw => .ok (sext (trunc_to_32_bit (wsub src1 src2)) 32, 0, pc_src0, wadd pc 4)
    | .slt => .ok (if toI64 src1 < toI64 src2 then 1 else 0, 0, pc_src0, wadd pc 4)
    | .slti => .ok (if toI64 src1 < toI64 imm then 1 else 0, 0, pc_src0, wadd pc 4)
    | .sltu => .ok (if src1 < src2 then 1 else 0, 0, pc_src0, wadd pc 4)
    | .sltiu => .ok (if src1 < imm then 1 else 0, 0, pc_src0, wadd pc 4)
    | .xor => .ok (src1 ^^^ src2, 0, pc_src0, wadd pc 4)
    | .xori => .ok (src1 ^^^ imm, 0, pc_src0, wadd pc 4)
    | .or => .ok (src1 ||| src2, 0, pc_src0, wadd pc 4)
    | .ori => .ok (src1 ||| imm, 0, pc_src0, wadd pc 4)
    | .and => .ok (src1 &&& src2, 0, pc_src0, wadd pc 4)
    | .andi => .ok (src1 &&& imm, 0, pc_src0, wadd pc 4)
    | .sll => .ok (shl64 src1 (trunc_to_6_bit src2), 0, pc_src0, wadd pc 4)
    | .slli => .ok (shl64 src1 (trunc_to_6_bit imm), 0, pc_src0, wadd pc 4)
    | .slliw =>
        let sc := trunc_to_5_bit_and_check imm
        if sc.2 = false then .error .illegalInstruction
        else .ok (sext (trunc_to_32_bit (shl64 src1 sc.1)) 32, 0, pc_src0, wadd pc 4)
    | .sllw =>
        .ok (sext (trunc_to_32_bit (shl64 (trunc_to_32_bit src1) (trunc_to_5_bit src2))) 32,
             0, pc_src0, wadd pc 4)
    | .srl => .ok (lshr64 src1 (trunc_to_6_bit src2), 0, pc_src0, wadd pc 4)
    | .srli => .ok (lshr64 src1 (trunc_to_6_bit imm), 0, pc_src0, wadd pc 4)
    | .srliw =>
        let sc := trunc_to_5_bit_and_check imm
        if sc.2 = false then .error .illegalInstruction
        else .ok (sext (trunc_to_32_bit (lshr64 (trunc_to_32_bit src1) sc.1)) 32,
                  0, pc_src0, wadd pc 4)
    | .srlw =>
        .ok (sext (lshr64 (trunc_to_32_bit src1) (trunc_to_5_bit src2)) 32,
             0, pc_src0, wadd pc 4)
    | .sra => .ok (ashr64 src1 (trunc_to_6_bit src2), 0, pc_src0, wadd pc 4)
    | .srai => .ok (ashr64 src1 (trunc_to_6_bit imm), 0, pc_src0, wadd pc 4)
    | .sraiw =>
        let sc := trunc_to_5_bit_and_check imm
        if sc.2 = false then .error .illegalInstruction
        else .ok (ashr64 (sext (trunc_to_32_bit src1) 32) sc.1, 0, pc_src0, wadd pc 4)
    | .sraw =>
        .ok (sext (ashr64 (sext (trunc_to_32_bit src1) 32) (trunc_to_5_bit src2)) 32,
             0, pc_src0, wadd pc 4)
    | .mul => .ok (wmul src1 src2, 0, pc_src0, wadd pc 4)
    | .mulh => .ok (get_high_64_bit (ofI128 (toI64 src1 * toI64 src2)), 0, pc_src0, wadd pc 4)
    | .mulhsu =>
        .ok (get_high_64_bit (ofI128 (toI64 src1 * (src2 : Int))), 0, pc_src0, wadd pc 4)
    | .mulhu => .ok (get_high_64_bit (src1 * src2), 0, pc_src0, wadd pc 4)
    | .mulw => .ok (sext (trunc_to_32_bit (wmul src1 src2)) 32, 0, pc_src0, wadd pc 4)
    | .div =>
        if src2 = 0 then .error .dividedByZero
        else .ok (sdiv64 src1 src2, 0, pc_src0, wadd pc 4)
    | .divu =>
        if src2 = 0 then .error .dividedByZero
        else .ok (src1 / src2, 0, pc_src0, wadd pc 4)
    | .divuw =>
        if trunc_to_32_bit src2 = 0 then .error .dividedByZero
        else .ok (sext (trunc_to_32_bit (trunc_to_32_bit src1 / trunc_to_32_bit src2)) 32,
                  0, pc_src0, wadd pc 4)
    | .divw =>
        if trunc_to_32_bit src2 = 0 then .error .dividedByZero
        else .ok (sext (trunc_to_32_bit (ofI32 ((toI32 src1).tdiv (toI32 src2)))) 32,
                  0, pc_src0, wadd pc 4)
    | .rem =>
        if src2 = 0 then .error .dividedByZero
        else .ok (srem64 src1 src2, 0, pc_src0, wadd pc 4)
    | .remu =>
        if src2 = 0 then .error .dividedByZero
        else .ok (src1 % src2, 0, pc_src0, wadd pc 4)
    | .remuw =>
        if src2 = 0 then .error .dividedByZero
        else if trunc_to_32_bit src2 = 0 then .error .panicked
        else .ok (sext (trunc_to_32_bit src1 % trunc_to_32_bit src2) 32,
                  0, pc_src0, wadd pc 4)
    | .remw =>
        if src2 = 0 then .error .dividedByZero
        else if trunc_to_32_bit src2 = 0 then .error .panicked
        else .ok (srem64 (trunc_to_32_bit src1) (trunc_to_32_bit src2),
                  0, pc_src0, wadd pc 4)
    | .csrrc | .csrrci | .csrrs | .csrrsi | .csrrw | .csrrwi
    | .mret | .sret | .fence | .fence_i | .wfi => .error .panicked
  arm.map fun out =>
    ({ raw_inst := d.raw_inst
       mem_flags := d.mem_flags
       wb_flags := d.wb_flags
       branch_flags := { d.branch_flags with pc_src := out.2.2.1 }
       pc := d.pc
       rs1 := d.rs1, rs2 := d.rs2, rs3 := d.rs3, rd := d.rd
       imm := d.imm
       alu_out := out.1
       mem_addr := out.2.1
       mem_bitwidth := mem_bitwidth
       mem_sext_to := mem_sext_to
       m2m_forward := false
       m2m_forward_val := 0
       alu_op := d.exec_flags.alu_op },
     ex_branch, out.2.2.1, new_pc_0, out.2.2.2)

/-!
## Memory stage (`multi_stage/mem.rs`)
-/

/-- Embeds `mem.rs::mem`.  The source asserts `!(mem_read & mem_write)`
(shown to hold for interpretation-originated latches in claim C10) and
dispatches on the bit width; the `unreachable!()` width arms are only
reachable from latches the execute stage never produces. -/
def memStage (vm : VMem) (l : IEM) : IMW × VMem :=
  let regval0 := if l.m2m_forward then l.m2m_forward_val else l.alu_out
  let regval :=
    if l.mem_flags.mem_read then
      let r := mread vm l.mem_bitwidth l.mem_addr
      if l.mem_sext_to = 0 then r else sext r l.mem_sext_to
    else regval0
  let vm1 :=
    if l.mem_flags.mem_write then mwrite vm l.mem_bitwidth l.mem_addr regval
    else vm
  ({ raw_inst := l.raw_inst
     wb_flags := l.wb_flags
     branch_flags := l.branch_flags
     mem_read := l.mem_flags.mem_read
     pc := l.pc
     rs1 := l.rs1, rs2 := l.rs2, rs3 := l.rs3, rd := l.rd
     imm := l.imm
     regval := regval
     alu_op := l.alu_op },
   vm1)

/-!
## Writeback stage (`multi_stage/writeback.rs`)
-/

/-- Embeds `writeback.rs::writeback`: commit `regval` to `rd` (writing 0
when `rd = 0`) when the latch writes a register, and report whether the
core keeps running (false exactly when the retiring opcode is `ebreak`). -/
def writebackStage (l : IMW) (regs : Nat → Nat) : (Nat → Nat) × Bool :=
  let regs1 :=
    if l.wb_flags.mem_to_reg then
      updFn regs l.rd (if l.rd ≠ 0 then l.regval else 0)
    else regs
  (regs1, decide (l.alu_op ≠ .ebreak))

/-!
## Pipelined CPU (`multi_stage/cpu.rs`)
-/

inductive PipelineState where
  | stall
  | bubble
  | normal
  deriving DecidableEq, Repr

/-- Ordering rank of a pipeline state (Normal < Bubble < Stall, per the
`Ord` impl in `multi_stage/cpu.rs`). -/
def PipelineState.rank : PipelineState → Nat
  | .normal => 0
  | .bubble => 1
  | .stall => 2

/-- Maximum of two pipeline states under the source ordering. -/
def pmax (a b : PipelineState) : PipelineState :=
  if a.rank < b.rank then b else a

/-- Embeds the `*_pipeline_states_set` helpers: raise each of the first
`min` entries to at least the requested state. -/
def statesSet : List PipelineState → List PipelineState → List PipelineState
  | a, [] => a
  | [], _ => []
  | x :: a, y :: t => pmax x y :: statesSet a t

/-- Direct assignment at index 0 (used by the misprediction flush). -/
def setHead (l : List PipelineState) (v : PipelineState) : List PipelineState :=
  match l with
  | [] => []
  | _ :: t => v :: t

/-- Embeds `rotate_left(1)` followed by writing Normal into the last slot
of the five-entry pipeline-state window. -/
def rotateStates (l : List PipelineState) : List PipelineState :=
  l.drop 1 ++ [.normal]

/-- Embeds the multi-cycle charge block of `clock()`: `div*` costs 39 extra
cycles, `rem*` costs 39 unless the instruction now leaving MEM is the
matching `div*` on the same `(rs1, rs2)`, and `mul*` costs 1. -/
def extra_exec_cycles (emOp : Inst64) (emRs1 emRs2 : Nat) (mwOp : Inst64)
    (mwRs1 mwRs2 : Nat) : Nat :=
  match emOp with
  | .div | .divw | .divu | .divuw => 39
  | .rem => if mwOp = .div ∧ emRs1 = mwRs1 ∧ emRs2 = mwRs2 then 0 else 39
  | .remw => if mwOp = .divw ∧ emRs1 = mwRs1 ∧ emRs2 = mwRs2 then 0 else 39
  | .remu => if mwOp = .divu ∧ emRs1 = mwRs1 ∧ emRs2 = mwRs2 then 0 else 39
  | .remuw => if mwOp = .divuw ∧ emRs1 = mwRs1 ∧ emRs2 = mwRs2 then 0 else 39
  | .mul | .mulh | .mulhsu | .mulhu | .mulw => 1
  | _ => 0

/-- The pipelined CPU state (`multi_stage/cpu.rs::CPU` plus its
`CPUStatistics`), with the register file and predictor maps as functions
and the five-deep pipeline-state windows as lists. -/
structure PipeState where
  running : Bool
  clock : Nat
  regs : Nat → Nat
  pc : Nat
  vm : VMem
  fd : IFD
  de : IDE
  em : IEM
  mw : IMW
  mwStates : List PipelineState
  eStates : List PipelineState
  dStates : List PipelineState
  fStates : List PipelineState
  pcStates : List PipelineState
  data_hazard_count : Nat
  data_hazard_delayed_cycles : Nat
  control_hazard_count : Nat
  control_hazard_delayed_cycles : Nat
  executed_inst_count : Nat
  bht : BHT
  btb : BTB
  ras : List Nat

/-- Intermediate result of the hazard-detection phase of `clock()`:
updated statistics, pipeline-state windows, and the (possibly mutated)
current EX/MEM and ID/EX latches. -/
structure HazOut where
  dhc : Nat
  dhd : Nat
  dStates : List PipelineState
  fStates : List PipelineState
  pcStates : List PipelineState
  em : IEM
  de : IDE

/-- The hazard-detection prefix of `clock()` (everything before the stage
functions): memory-to-memory copy detection, then the two data-hazard
blocks, mutating the statistics, the pipeline-state windows, the EX/MEM
latch (m2m forward fields) and the ID/EX latch (forward selectors and
forwarded values).  `dhc0` is the hazard count after the load-use check. -/
def hazardPhase (dhp : DataHazardPolicy) (s : PipeState) (dhc0 : Nat) : HazOut :=
  let h0 : HazOut :=
    { dhc := dhc0, dhd := s.data_hazard_delayed_cycles
      dStates := s.dStates, fStates := s.fStates, pcStates := s.pcStates
      em := s.em, de := s.de }
  let h1 : HazOut :=
    match dhp with
    | .naiveStall =>
        if s.de.rd ≠ 0 ∧ s.de.rd = s.fd.rs2 ∧ s.de.mem_flags.mem_read = true ∧
            s.fd.mem_flags.mem_write = true then
          { h0 with
            dhc := h0.dhc + 1, dhd := h0.dhd + 2
            dStates := statesSet h0.dStates [.bubble]
            fStates := statesSet h0.fStates [.stall, .bubble]
            pcStates := statesSet h0.pcStates [.stall, .stall] }
        else h0
    | .dataForward =>
        if s.mw.rd ≠ 0 ∧ s.mw.rd = s.em.rs2 ∧ s.mw.mem_read = true ∧
            s.em.mem_flags.mem_write = true then
          { h0 with
            dhc := h0.dhc + 1
            em := { s.em with m2m_forward := true, m2m_forward_val := s.mw.regval } }
        else h0
  let h2 : HazOut :=
    match dhp with
    | .naiveStall =>
        if s.de.wb_flags.mem_to_reg = true ∧ s.de.rd ≠ 0 ∧
            (s.de.rd = s.fd.rs1 ∨ s.de.rd = s.fd.rs2) then
          { h1 with
            dhc := h1.dhc + 1, dhd := h1.dhd + 2
            dStates := statesSet h1.dStates [.bubble]
            fStates := statesSet h1.fStates [.stall, .bubble]
            pcStates := statesSet h1.pcStates [.stall, .stall] }
        else h1
    | .dataForward =>
        let em1 := h1.em
        let fa :=
          if em1.wb_flags.mem_to_reg = true ∧ em1.rd ≠ 0 ∧ em1.rd = s.de.rs1 then 0b10
          else s.de.forward_a
        let fb :=
          if em1.wb_flags.mem_to_reg = true ∧ em1.rd ≠ 0 ∧ em1.rd = s.de.rs2 then 0b10
          else s.de.forward_b
        let cnt :=
          if em1.wb_flags.mem_to_reg = true ∧ em1.rd ≠ 0 ∧
              (em1.rd = s.de.rs1 ∨ em1.rd = s.de.rs2) then h1.dhc + 1
          else h1.dhc
        { h1 with
          dhc := cnt
          de := { s.de with forward_a := fa, forward_b := fb, ex_mem_forward := em1.alu_out } }
  let h3 : HazOut :=
    match dhp with
    | .naiveStall =>
        if h2.em.wb_flags.mem_to_reg = true ∧ h2.em.rd ≠ 0 ∧
            ((s.de.rd ≠ s.fd.rs1 ∧ h2.em.rd = s.fd.rs1) ∨
             (s.de.rd ≠ s.fd.rs2 ∧ h2.em.rd = s.fd.rs2)) then
          { h2 with
            dhc := h2.dhc + 1, dhd := h2.dhd + 1
            dStates := statesSet h2.dStates [.bubble]
            fStates := statesSet h2.fStates [.stall]
            pcStates := statesSet h2.pcStates [.stall] }
        else h2
    | .dataForward =>
        let fa :=
          if s.mw.wb_flags.mem_to_reg = true ∧ s.mw.rd ≠ 0 ∧ h2.em.rd ≠ s.de.rs1 ∧
              s.mw.rd = s.de.rs1 then 0b01
          else h2.de.forward_a
        let fb :=
          if s.mw.wb_flags.mem_to_reg = true ∧ s.mw.rd ≠ 0 ∧ h2.em.rd ≠ s.de.rs2 ∧
              s.mw.rd = s.de.rs2 then 0b01
          else h2.de.forward_b
        let cnt :=
          if s.mw.wb_flags.mem_to_reg = true ∧ s.mw.rd ≠ 0 ∧
              ((h2.em.rd ≠ s.de.rs1 ∧ s.mw.rd = s.de.rs1) ∨
               (h2.em.rd ≠ s.de.rs2 ∧ s.mw.rd = s.de.rs2)) then h2.dhc + 1
          else h2.dhc
        { h2 with
          dhc := cnt
          de := { h2.de with forward_a := fa, forward_b := fb, mem_wb_forward := s.mw.regval } }
  h3

/-- Result of the post-stage part of `clock()` assembled by `commitPhase`. -/
structure CommitIn where
  load_use : Bool
  haz : HazOut
  regs1 : Nat → Nat
  running1 : Bool
  new_mw0 : IMW
  vm1 : VMem
  new_em0 : IEM
  new_pc_0 : Nat
  new_pc_1 : Nat
  new_de0 : IDE
  new_fd0 : IFD
  bht2 : BHT
  btb2 : BTB
  ras1 : List Nat

/-- The tail of `clock()` after the stage functions and predictor
bookkeeping: misprediction flush, load-use handling, latch commit under
the pipeline-state muxes, multi-cycle charges, instruction accounting,
next-PC selection, x0 reset, and the window rotation. -/
def commitPhase (dhp : DataHazardPolicy) (s : PipeState) (c : CommitIn) :
    PipeState :=
  let ex_branch := c.new_em0.branch_flags.branch
  let pc_src := c.new_em0.branch_flags.pc_src
  let predicted_src := c.new_em0.branch_flags.predicted_src
  let mispredict :=
    ex_branch = true ∧
      (pc_src ≠ predicted_src ∨
        (c.new_em0.is_ret = true ∧ c.new_pc_1 ≠ c.new_em0.branch_flags.predicted_target))
  let chc1 := if mispredict then s.control_hazard_count + 1 else s.control_hazard_count
  let chd1 :=
    if mispredict then s.control_hazard_delayed_cycles + 2
    else s.control_hazard_delayed_cycles
  let dStates5 := if mispredict then setHead c.haz.dStates .bubble else c.haz.dStates
  let fStates5 := if mispredict then setHead c.haz.fStates .bubble else c.haz.fStates
  let pcStates5 := if mispredict then setHead c.haz.pcStates .normal else c.haz.pcStates
  let luForward := c.load_use = true ∧ dhp = .dataForward
  let dhd5 := if luForward then c.haz.dhd + 1 else c.haz.dhd
  let dStates6 := if luForward then statesSet dStates5 [.bubble] else dStates5
  let fStates6 := if luForward then statesSet fStates5 [.stall] else fStates5
  let pcStates6 := if luForward then statesSet pcStates5 [.stall] else pcStates5
  let mwState := s.mwStates.headD .normal
  let emState := s.eStates.headD .normal
  let dState := dStates6.headD .normal
  let fState := fStates6.headD .normal
  let pcState := pcStates6.headD .normal
  let new_mw := match mwState with
    | .normal => c.new_mw0
    | .bubble => IMW.default
    | .stall => s.mw
  let new_em := match emState with
    | .normal => c.new_em0
    | .bubble => IEM.default
    | .stall => c.haz.em
  let new_de := match dState with
    | .normal => c.new_de0
    | .bubble => IDE.default
    | .stall => c.haz.de
  let new_fd := match fState with
    | .normal => c.new_fd0
    | .bubble => IFD.default
    | .stall => s.fd
  let clock2 := s.clock + 1 +
    extra_exec_cycles new_em.alu_op new_em.rs1 new_em.rs2
      new_mw.alu_op new_mw.rs1 new_mw.rs2
  let executed1 :=
    s.executed_inst_count + (if new_em.alu_op ≠ .noop then 1 else 0)
  let next_pc := match pcState with
    | .stall => s.pc
    | .bubble => s.pc
    | .normal =>
        if mispredict then (if pc_src = true then c.new_pc_1 else c.new_pc_0)
        else if new_fd.branch_flags.predicted_src = true then
          new_fd.branch_flags.predicted_target
        else wadd s.pc 4
  { running := c.running1
    clock := clock2
    regs := updFn c.regs1 0 0
    pc := next_pc
    vm := c.vm1
    fd := new_fd, de := new_de, em := new_em, mw := new_mw
    mwStates := rotateStates s.mwStates
    eStates := rotateStates s.eStates
    dStates := rotateStates dStates6
    fStates := rotateStates fStates6
    pcStates := rotateStates pcStates6
    data_hazard_count := c.haz.dhc
    data_hazard_delayed_cycles := dhd5
    control_hazard_count := chc1
    control_hazard_delayed_cycles := chd1
    executed_inst_count := executed1
    bht := c.bht2, btb := c.btb2, ras := c.ras1 }

/-- Embeds `multi_stage/cpu.rs::CPU::clock`, one full pipeline clock:
load-use detection, the hazard phase on the current latches, the five
stage functions (in WB, MEM, EX, ID, IF order, the latter reading the
register file already updated by WB), branch bookkeeping, and the commit
phase.  Errors escape through `?` from the execute stage; the predictor
bookkeeping's `expect`/`unreachable` panics also surface as errors. -/
def clockStep (dhp : DataHazardPolicy) (cp : ControlPolicy) (s : PipeState) :
    Except ExErr PipeState :=
  let load_use : Bool :=
    s.de.mem_flags.mem_read &&
      (decide (s.de.rd = s.fd.rs1) || decide (s.de.rd = s.fd.rs2))
  let dhc0 := s.data_hazard_count + (if load_use then 1 else 0)
  let haz := hazardPhase dhp s dhc0
  let wbOut := writebackStage s.mw s.regs
  let memOut := memStage s.vm haz.em
  match exec haz.de with
  | .error e => .error e
  | .ok exOut =>
      let new_em0 := exOut.1
      let new_pc_0 := exOut.2.2.2.1
      let new_pc_1 := exOut.2.2.2.2
      let new_de0 := decodeStage wbOut.1 s.fd
      let fOut := fetchStage cp memOut.2 s.pc s.bht s.btb s.ras
      let upd : Except ExErr (BTB × BHT) :=
        if new_em0.branch_flags.branch = true ∧ cp = .dynamicPredict then
          let btb1 := s.btb.add_entry new_em0.pc new_pc_1
          match fOut.2.1.update_with_result new_em0.pc new_em0.branch_flags.pc_src with
          | none => .error .panicked
          | some b2 => .ok (btb1, b2)
        else .ok (s.btb, fOut.2.1)
      match upd with
      | .error e => .error e
      | .ok updOut =>
          .ok (commitPhase dhp s
            { load_use := load_use
              haz := haz
              regs1 := wbOut.1
              running1 := wbOut.2
              new_mw0 := memOut.1
              vm1 := memOut.2
              new_em0 := new_em0
              new_pc_0 := new_pc_0
              new_pc_1 := new_pc_1
              new_de0 := new_de0
              new_fd0 := fOut.1
              bht2 := updOut.2
              btb2 := updOut.1
              ras1 := fOut.2.2 })

/-- Initial pipelined CPU state: zeroed register file, all latches default
with their PCs preset to the ELF entry point (`init_elfinfo_64`), empty
predictor state, and `running = true` (`cpu_exec`). -/
def initPipeState (vm : VMem) (pp : PredictPolicy) (entry : Nat) : PipeState :=
  { running := true
    clock := 0
    regs := fun _ => 0
    pc := entry
    vm := vm
    fd := { IFD.default with pc := entry }
    de := { IDE.default with pc := entry }
    em := { IEM.default with pc := entry }
    mw := { IMW.default with pc := entry }
    mwStates := [.normal, .normal, .normal, .normal, .normal]
    eStates := [.normal, .normal, .normal, .normal, .normal]
    dStates := [.normal, .normal, .normal, .normal, .normal]
    fStates := [.normal, .normal, .normal, .normal, .normal]
    pcStates := [.normal, .normal, .normal, .normal, .normal]
    data_hazard_count := 0
    data_hazard_delayed_cycles := 0
    control_hazard_count := 0
    control_hazard_delayed_cycles := 0
    executed_inst_count := 0
    bht := { predict_policy := pp, inner := fun _ => none }
    btb := { inner := fun _ => none }
    ras := [] }

/-- Embeds `cpu_exec` for the pipelined core: clock until `running` turns
false (the halting `ebreak` retires) or an error escapes, with explicit
fuel standing in for the unbounded loop. -/
def pipeRun (dhp : DataHazardPolicy) (cp : ControlPolicy) :
    Nat → PipeState → Except ExErr PipeState
  | 0, s => .ok s
  | fuel + 1, s =>
      if s.running = true then
        match clockStep dhp cp s with
        | .error e => .error e
        | .ok s1 => pipeRun dhp cp fuel s1
      else .ok s

/-!
## Single-cycle core (`single_cycle/cpu.rs`, `decode.rs`)
-/

/-- Errors of the single-cycle core: decode errors, the `ebreak` halt
(surfaced as `Error::Execute`), the two exceptions, and Rust panics. -/
inductive SErr where
  | decodeErr
  | executeBreak
  | dividedByZero
  | illegalInstruction
  | panicked
  deriving DecidableEq, Repr

/-- Embeds `core/insts.rs::ExecInternal` (the single-cycle decoded form). -/
structure EIN where
  raw_inst : Nat
  inst : Inst64
  rs1 : Nat
  rs2 : Nat
  rs3 : Nat
  rd : Nat
  imm : Nat
  pc : Nat
  src1 : Nat
  src2 : Nat
  src3 : Nat
  deriving DecidableEq, Repr

/-- Embeds `decode.rs::decode` for the single-cycle core.  Its per-opcode
dispatch (opcode, `funct3`, `funct7`/`funct6`, SYSTEM csr field) and the
operand/immediate extraction are textually identical to the pipeline's
`fetch.rs` decoders, so the interpretation is shared: an `ok` latch is
projected onto the `ExecInternal` fields the single-cycle decoders set.
The differences are faithfully mapped: in `decode.rs` the unimplemented
opcode classes (LOAD_FP, MISC_MEM, AMO, MADD, MSUB, NMSUB, NMADD, OP_FP)
and unknown opcodes run `todo!()` and panic instead of returning the
pipeline's `Error::Fetch`, and `raw_inst` is never assigned, so it keeps
its `Default` value 0. -/
def sc_decode (inst : Nat) : Except SErr EIN :=
  match inst_interpret 0 inst with
  | .ok itl =>
      .ok { raw_inst := 0, inst := itl.exec_flags.alu_op
            rs1 := itl.rs1, rs2 := itl.rs2, rs3 := itl.rs3, rd := itl.rd
            imm := itl.imm, pc := 0, src1 := 0, src2 := 0, src3 := 0 }
  | .error .decodeErr => .error .decodeErr
  | .error .fetchErr => .error .panicked
  | .error .panicked => .error .panicked

/-- The single-cycle CPU state (`single_cycle/cpu.rs::CPU`). -/
structure SState where
  running : Bool
  regs : Nat → Nat
  pc : Nat
  vm : VMem

/-- The per-instruction calculation of `single_cycle/cpu.rs::exec_inst`
(everything before the common tail): reads the sources, dispatches on the
opcode, and yields the updated register file and memory together with the
branch decision `(use_new_pc, new_pc)`.  Early returns (`ebreak`, the
exceptions) carry the state as mutated so far; `todo!()` arms (`ecall`,
`mret`, `sret`) and divide-by-zero panics in `remw`/`remuw` are
`panicked`.  Unknown opcodes (the `_` arm) only log and fall through to
the common tail as a noop. -/
def execCalc (s : SState) (e : EIN) : Except (SErr × SState) ((Nat → Nat) × VMem × Bool × Nat) :=
  let pc := s.pc
  let src1 := s.regs e.rs1
  let src2 := s.regs e.rs2
  let imm := e.imm
  let rd := e.rd
  let keep : (Nat → Nat) × VMem × Bool × Nat := (s.regs, s.vm, false, 0)
  let wr : Nat → ((Nat → Nat) × VMem × Bool × Nat) := fun v => (updFn s.regs rd v, s.vm, false, 0)
  match e.inst with
  | .add => .ok (wr (wadd src1 src2))
  | .addi => .ok (wr (wadd src1 (sext imm I_TYPE_IMM_BITWIDTH)))
  | .addiw => .ok (wr (sext (trunc_to_32_bit (wadd src1 (sext imm I_TYPE_IMM_BITWIDTH))) 32))
  | .addw => .ok (wr (sext (trunc_to_32_bit (wadd src1 src2)) 32))
  | .and => .ok (wr (src1 &&& src2))
  | .andi => .ok (wr (src1 &&& sext imm I_TYPE_IMM_BITWIDTH))
  | .auipc => .ok (wr (wadd pc (shl64 (sext imm U_TYPE_IMM_BITWIDTH) 12)))
  | .beq =>
      if src1 = src2 then .ok (s.regs, s.vm, true, wadd pc (sext imm B_TYPE_IMM_BITWIDTH))
      else .ok keep
  | .bge =>
      if toI64 src1 ≥ toI64 src2 then
        .ok (s.regs, s.vm, true, wadd pc (sext imm B_TYPE_IMM_BITWIDTH))
      else .ok keep
  | .bgeu =>
      if src1 ≥ src2 then .ok (s.regs, s.vm, true, wadd pc (sext imm B_TYPE_IMM_BITWIDTH))
      else .ok keep
  | .blt =>
      if toI64 src1 < toI64 src2 then
        .ok (s.regs, s.vm, true, wadd pc (sext imm B_TYPE_IMM_BITWIDTH))
      else .ok keep
  | .bltu =>
      if src1 < src2 then .ok (s.regs, s.vm, true, wadd pc (sext imm B_TYPE_IMM_BITWIDTH))
      else .ok keep
  | .bne =>
      if src1 ≠ src2 then .ok (s.regs, s.vm, true, wadd pc (sext imm B_TYPE_IMM_BITWIDTH))
      else .ok keep
  | .div =>
      if src2 = 0 then .error (.dividedByZero, s)
      else .ok (wr (sdiv64 src1 src2))
  | .divu =>
      if src2 = 0 then .error (.dividedByZero, s)
      else .ok (wr (src1 / src2))
  | .divuw =>
      if trunc_to_32_bit src2 = 0 then .error (.dividedByZero, s)
      else .ok (wr (sext (trunc_to_32_bit (trunc_to_32_bit src1 / trunc_to_32_bit src2)) 32))
  | .divw =>
      if trunc_to_32_bit src2 = 0 then .error (.dividedByZero, s)
      else .ok (wr (sext (trunc_to_32_bit (ofI32 ((toI32 src1).tdiv (toI32 src2)))) 32))
  | .ebreak => .error (.executeBreak, { s with running := false })
  | .ecall => .error (.panicked, s)
  | .jal =>
      .ok (updFn s.regs rd (wadd pc 4), s.vm, true, wadd pc (sext imm J_TYPE_IMM_BITWIDTH))
  | .jalr =>
      .ok (updFn s.regs rd (wadd pc 4), s.vm, true,
           wadd src1 (sext imm I_TYPE_IMM_BITWIDTH) / 2 * 2)
  | .lb =>
      let vaddr := wadd src1 (sext imm I_TYPE_IMM_BITWIDTH)
      .ok (wr (sext (mread s.vm 8 vaddr) 8))
  | .lbu =>
      let vaddr := wadd src1 (sext imm I_TYPE_IMM_BITWIDTH)
      .ok (wr (mread s.vm 8 vaddr))
  | .ld =>
      let vaddr := wadd src1 (sext imm I_TYPE_IMM_BITWIDTH)
      .ok (wr (mread s.vm 64 vaddr))
  | .lh =>
      let vaddr := wadd src1 (sext imm I_TYPE_IMM_BITWIDTH)
      .ok (wr (sext (mread s.vm 16 vaddr) 16))
  | .lhu =>
      let vaddr := wadd src1 (sext imm I_TYPE_IMM_BITWIDTH)
      .ok (wr (mread s.vm 16 vaddr))
  | .lui => .ok (wr (shl64 (sext imm U_TYPE_IMM_BITWIDTH) 12 / 2 ^ 12 * 2 ^ 12))
  | .lw =>
      let vaddr := wadd src1 (sext imm I_TYPE_IMM_BITWIDTH)
      .ok (wr (sext (mread s.vm 32 vaddr) 32))
  | .lwu =>
      let vaddr := wadd src1 (sext imm I_TYPE_IMM_BITWIDTH)
      .ok (wr (mread s.vm 32 vaddr))
  | .mret => .error (.panicked, s)
  | .mul => .ok (wr (wmul src1 src2))
  | .mulh => .ok (wr (get_high_64_bit (ofI128 (toI64 src1 * toI64 src2))))
  | .mulhsu => .ok (wr (get_high_64_bit (ofI128 (toI64 src1 * (src2 : Int)))))
  | .mulhu => .ok (wr (get_high_64_bit (src1 * src2)))
  | .mulw => .ok (wr (sext (trunc_to_32_bit (wmul src1 src2)) 32))
  | .or => .ok (wr (src1 ||| src2))
  | .ori => .ok (wr (src1 ||| sext imm I_TYPE_IMM_BITWIDTH))
  | .rem =>
      if src2 = 0 then .error (.dividedByZero, s)
      else .ok (wr (srem64 src1 src2))
  | .remu =>
      if src2 = 0 then .error (.dividedByZero, s)
      else .ok (wr (src1 % src2))
  | .remuw =>
      if src2 = 0 then .error (.dividedByZero, s)
      else if trunc_to_32_bit src2 = 0 then .error (.panicked, s)
      else .ok (wr (sext (trunc_to_32_bit src1 % trunc_to_32_bit src2) 32))
  | .remw =>
      if src2 = 0 then .error (.dividedByZero, s)
      else if trunc_to_32_bit src2 = 0 then .error (.panicked, s)
      else .ok (wr (srem64 (trunc_to_32_bit src1) (trunc_to_32_bit src2)))
  | .sb =>
      let vaddr := wadd src1 (sext imm S_TYPE_IMM_BITWIDTH)
      .ok (s.regs, mwrite s.vm 8 vaddr (trunc_to_8_bit src2), false, 0)
  | .sd =>
      let vaddr := wadd src1 (sext imm S_TYPE_IMM_BITWIDTH)
      .ok (s.regs, mwrite s.vm 64 vaddr src2, false, 0)
  | .sh =>
      let vaddr := wadd src1 (sext imm S_TYPE_IMM_BITWIDTH)
      .ok (s.regs, mwrite s.vm 16 vaddr (trunc_to_16_bit src2), false, 0)
  | .sll => .ok (wr (shl64 src1 (trunc_to_6_bit src2)))
  | .slli => .ok (wr (shl64 src1 (trunc_to_6_bit imm)))
  | .slliw =>
      let sc := trunc_to_5_bit_and_check imm
      if sc.2 = false then .error (.illegalInstruction, s)
      else .ok (wr (sext (trunc_to_32_bit (shl64 src1 sc.1)) 32))
  | .sllw =>
      .ok (wr (sext (trunc_to_32_bit (shl64 (trunc_to_32_bit src1) (trunc_to_5_bit src2))) 32))
  | .slt => .ok (wr (if toI64 src1 < toI64 src2 then 1 else 0))
  | .slti => .ok (wr (if toI64 src1 < toI64 (sext imm I_TYPE_IMM_BITWIDTH) then 1 else 0))
  | .sltiu => .ok (wr (if src1 < sext imm I_TYPE_IMM_BITWIDTH then 1 else 0))
  | .sltu => .ok (wr (if src1 < src2 then 1 else 0))
  | .sra => .ok (wr (ashr64 src1 (trunc_to_6_bit src2)))
  | .srai => .ok (wr (ashr64 src1 (trunc_to_6_bit imm)))
  | .sraiw =>
      let sc := trunc_to_5_bit_and_check imm
      if sc.2 = false then .error (.illegalInstruction, s)
      else .ok (wr (ashr64 (sext (trunc_to_32_bit src1) 32) sc.1))
  | .sraw =>
      .ok (wr (sext (ashr64 (sext (trunc_to_32_bit src1) 32) (trunc_to_5_bit src2)) 32))
  | .sret => .error (.panicked, s)
  | .srl => .ok (wr (lshr64 src1 (trunc_to_6_bit src2)))
  | .srli => .ok (wr (lshr64 src1 (trunc_to_6_bit imm)))
  | .srliw =>
      let sc := trunc_to_5_bit_and_check imm
      if sc.2 = false then .error (.illegalInstruction, s)
      else .ok (wr (sext (trunc_to_32_bit (lshr64 (trunc_to_32_bit src1) sc.1)) 32))
  | .srlw =>
      .ok (wr (sext (lshr64 (trunc_to_32_bit src1) (trunc_to_5_bit src2)) 32))
  | .sub => .ok (wr (wsub src1 src2))
  | .subw => .ok (wr (sext (trunc_to_32_bit (wsub src1 src2)) 32))
  | .sw =>
      let vaddr := wadd src1 (sext imm S_TYPE_IMM_BITWIDTH)
      .ok (s.regs, mwrite s.vm 32 vaddr (trunc_to_32_bit src2), false, 0)
  | .xor => .ok (wr (src1 ^^^ src2))
  | .xori => .ok (wr (src1 ^^^ sext imm I_TYPE_IMM_BITWIDTH))
  | .noop | .csrrc | .csrrci | .csrrs | .csrrsi | .csrrw | .csrrwi
  | .fence | .fence_i | .wfi => .ok keep

/-- Embeds `single_cycle/cpu.rs::exec_inst`: run the per-opcode
calculation, then the common tail that writes the PC (`pc + 4` unless the
instruction chose a new PC) and restores `x0 = 0`.  On an early return
(error) the tail is skipped and the state is as mutated so far. -/
def exec_inst (s : SState) (e : EIN) : Except SErr Unit × SState :=
  match execCalc s e with
  | .error es => (.error es.1, es.2)
  | .ok out =>
      (.ok (),
       { s with regs := updFn out.1 0 0
                vm := out.2.1
                pc := if out.2.2.1 then out.2.2.2 else wadd s.pc 4 })

/-- Embeds `single_cycle/cpu.rs::exec_once`: fetch (with the `check!` that
the PC is nonzero, whose failure is a panic), decode, execute. -/
def exec_once (s : SState) : Except SErr Unit × SState :=
  if s.pc = 0 then (.error .panicked, s)
  else
    match sc_decode (fetch_inst s.vm s.pc) with
    | .error e => (.error e, s)
    | .ok ein => exec_inst s ein

/-- Embeds `cpu_exec` for the single-cycle core (fuelled loop; the source
loops while `running` and propagates the first error). -/
def singleRun : Nat → SState → Except SErr Unit × SState
  | 0, s => (.ok (), s)
  | fuel + 1, s =>
      if s.running = true then
        match exec_once s with
        | (.ok _, s1) => singleRun fuel s1
        | (.error e, s1) => (.error e, s1)
      else (.ok (), s)

/-- Initial single-cycle CPU state: zeroed registers, PC at the ELF entry
point, `running = true`. -/
def initSState (vm : VMem) (entry : Nat) : SState :=
  { running := true, regs := fun _ => 0, pc := entry, vm := vm }

/-!
## Helper lemmas
-/

theorem hostReadBytes_congr (nb : Nat) :
    ∀ (pos : Nat) (m1 m2 : Nat → Nat),
      (∀ i, i < nb → m1 (pos + i) = m2 (pos + i)) →
      hostReadBytes m1 pos nb = hostReadBytes m2 pos nb := by
  induction nb with
  | zero => intro pos m1 m2 _; rfl
  | succ n ih =>
      intro pos m1 m2 h
      unfold hostReadBytes
      have h0 := h 0 (by omega)
      simp only [Nat.add_zero] at h0
      rw [h0, ih (pos + 1) m1 m2 (fun i hi => by
        have := h (1 + i) (by omega)
        simpa [Nat.add_assoc, Nat.add_comm 1 i] using this)]

theorem hostWriteBytes_frame (m : Nat → Nat) (pos nb v a : Nat)
    (h : a < pos ∨ pos + nb ≤ a) :
    hostWriteBytes m pos nb v a = m a := by
  unfold hostWriteBytes
  rw [if_neg]
  omega

theorem hostRead_hostWrite (nb : Nat) :
    ∀ (pos v : Nat) (m : Nat → Nat), v < 2 ^ (8 * nb) →
      hostReadBytes (hostWriteBytes m pos nb v) pos nb = v := by
  induction nb with
  | zero =>
      intro pos v m hv
      interval_cases v
      rfl
  | succ n ih =>
      intro pos v m hv
      unfold hostReadBytes
      have hpos : hostWriteBytes m pos (n + 1) v pos = v % 2 ^ 8 := by
        unfold hostWriteBytes
        rw [if_pos (by omega)]
        simp
      rw [hpos]
      have hcongr : hostReadBytes (hostWriteBytes m pos (n + 1) v) (pos + 1) n =
          hostReadBytes (hostWriteBytes m (pos + 1) n (v / 2 ^ 8)) (pos + 1) n := by
        apply hostReadBytes_congr
        intro i hi
        unfold hostWriteBytes
        rw [if_pos (by omega), if_pos (by omega)]
        have e1 : pos + 1 + i - pos = 1 + i := by omega
        have e2 : pos + 1 + i - (pos + 1) = i := by omega
        rw [e1, e2, Nat.div_div_eq_div_mul, ← pow_add]
        have : 8 * (1 + i) = 8 + 8 * i := by ring
        rw [this]
      rw [hcongr, ih (pos + 1) (v / 2 ^ 8) m (by
        have h256 : (0:Nat) < 2 ^ 8 := by norm_num
        rw [Nat.div_lt_iff_lt_mul h256]
        calc v < 2 ^ (8 * (n + 1)) := hv
          _ = 2 ^ (8 * n) * 2 ^ 8 := by rw [← pow_add]; ring_nf
        )]
      omega

/-!
## Claim theorems
-/

/-- C7: under the two-bit prediction policy, for every branch PC already
present in the BHT with a state in {00,01,10,11}, `update_with_result`
applies exactly the Smith saturating-counter transitions
(00,T→01; 01,T→11; 01,NT→00; 11,NT→10; 10,T→11; 10,NT→00; 00,NT→00;
11,T→11), and the new state again lies in {00,01,10,11}. -/
theorem bht_two_bit_update_is_smith_fsm (b : BHT) (pc st : Nat) (taken : Bool)
    (hpol : b.predict_policy = .twoBitsPredict)
    (hst : b.inner pc = some st) (hrange : st < 4) :
    ∃ nst, b.update_with_result pc taken =
        some { b with inner := mapInsert b.inner pc nst } ∧
      nst < 4 ∧
      (st = 0b00 → taken = true → nst = 0b01) ∧
      (st = 0b01 → taken = true → nst = 0b11) ∧
      (st = 0b01 → taken = false → nst = 0b00) ∧
      (st = 0b11 → taken = false → nst = 0b10) ∧
      (st = 0b10 → taken = true → nst = 0b11) ∧
      (st = 0b10 → taken = false → nst = 0b00) ∧
      (st = 0b00 → taken = false → nst = 0b00) ∧
      (st = 0b11 → taken = true → nst = 0b11) := by
  unfold BHT.update_with_result
  rw [hpol, hst]
  interval_cases st <;> cases taken <;>
    simp [Option.map]

/-- Witness for C7 at a concrete BHT: pc 256 in state 01 on a taken branch
moves to state 11. -/
theorem bht_two_bit_update_is_smith_fsm_witness :
    ∃ nst,
      BHT.update_with_result
          { predict_policy := .twoBitsPredict
            inner := fun p => if p = 256 then some 1 else none } 256 true =
        some { predict_policy := .twoBitsPredict
               inner := mapInsert (fun p => if p = 256 then some 1 else none) 256 nst } ∧
      nst < 4 ∧ nst = 0b11 := by
  have h := bht_two_bit_update_is_smith_fsm
    { predict_policy := .twoBitsPredict
      inner := fun p => if p = 256 then some 1 else none } 256 1 true rfl (by simp) (by omega)
  rcases h with ⟨nst, hupd, hlt, _, h1t, _, _, _, _, _, _⟩
  exact ⟨nst, hupd, hlt, h1t rfl rfl⟩

/-- C9: for every width W in {8,16,32,64}, every W-bit value and every
virtual address whose buffer position and following W/8 bytes lie inside
the allocated buffer, `mwrite` followed immediately by `mread` at the same
address and width returns the value, and no byte outside the written
W/8-byte range changes. -/
theorem mwrite_mread_roundtrip_and_frame (vm : VMem) (w vaddr v : Nat)
    (hw : w = 8 ∨ w = 16 ∨ w = 32 ∨ w = 64)
    (hv : v < 2 ^ w)
    (hbase : vm.ld_start ≤ vaddr)
    (hsize : vaddr - vm.ld_start + w / 8 ≤ vm.size) :
    mread (mwrite vm w vaddr v) w vaddr = v ∧
    ∀ a, a < vaddr - vm.ld_start ∨ vaddr - vm.ld_start + w / 8 ≤ a →
      (mwrite vm w vaddr v).bytes a = vm.bytes a := by
  constructor
  · unfold mread mwrite
    rcases hw with h | h | h | h <;> subst h <;>
      exact hostRead_hostWrite _ _ _ _ (by simpa using hv)
  · intro a ha
    unfold mwrite
    exact hostWriteBytes_frame _ _ _ _ _ ha

/-- Witness for C9 at width 32: writing 0xDEADBEEF at vaddr 0x1010 in a
buffer based at 0x1000 reads back 0xDEADBEEF and leaves byte 0 alone. -/
theorem mwrite_mread_roundtrip_and_frame_witness :
    mread (mwrite { bytes := fun _ => 0, ld_start := 0x1000, size := 0x100 } 32 0x1010 0xDEADBEEF)
        32 0x1010 = 0xDEADBEEF ∧
    (mwrite { bytes := fun _ => 0, ld_start := 0x1000, size := 0x100 } 32 0x1010 0xDEADBEEF).bytes 0
      = 0 := by
  have h := mwrite_mread_roundtrip_and_frame
    { bytes := fun _ => 0, ld_start := 0x1000, size := 0x100 } 32 0x1010 0xDEADBEEF
    (by omega) (by norm_num) (by norm_num) (by norm_num)
  exact ⟨h.1, h.2 0 (by norm_num)⟩

/-- The load opcodes (the instructions whose decoders set `mem_read`). -/
def isLoadOp (op : Inst64) : Prop :=
  op = .lb ∨ op = .lh ∨ op = .lw ∨ op = .ld ∨ op = .lbu ∨ op = .lhu ∨ op = .lwu

/-- The store opcodes (the instructions whose decoders set `mem_write`). -/
def isStoreOp (op : Inst64) : Prop :=
  op = .sb ∨ op = .sh ∨ op = .sw ∨ op = .sd

/-- Classification of a fetched latch's memory control flags: loads set
exactly `mem_read`, stores set exactly `mem_write`, everything else sets
neither, so `mem_read` and `mem_write` are never both true. -/
def memFlagClass (itl : IFD) : Prop :=
  (itl.mem_flags.mem_read = true ↔ isLoadOp itl.exec_flags.alu_op) ∧
  (itl.mem_flags.mem_write = true ↔ isStoreOp itl.exec_flags.alu_op) ∧
  ¬(itl.mem_flags.mem_read = true ∧ itl.mem_flags.mem_write = true)

theorem decode_load_memFlagClass (w : Nat) (itl : IFD)
    (h : decode_load w = .ok itl) : memFlagClass itl := by
  unfold decode_load at h
  simp only [Except.map] at h
  split at h
  · exact absurd h (by simp)
  · next v heq =>
      cases h
      split_ifs at heq
      all_goals cases heq
      all_goals simp [memFlagClass, isLoadOp, isStoreOp]

set_option maxHeartbeats 1000000 in
theorem decode_op_imm_memFlagClass (w : Nat) (itl : IFD)
    (h : decode_op_imm w = .ok itl) : memFlagClass itl := by
  unfold decode_op_imm at h
  simp only [Except.map] at h
  split at h
  · exact absurd h (by simp)
  · next v heq =>
      cases h
      split_ifs at heq
      all_goals cases heq
      all_goals simp [memFlagClass, isLoadOp, isStoreOp]

theorem decode_op_auipc_memFlagClass (w : Nat) (itl : IFD)
    (h : decode_op_auipc w = .ok itl) : memFlagClass itl := by
  unfold decode_op_auipc at h
  cases h
  simp [memFlagClass, isLoadOp, isStoreOp]

theorem decode_op_imm_32_memFlagClass (w : Nat) (itl : IFD)
    (h : decode_op_imm_32 w = .ok itl) : memFlagClass itl := by
  unfold decode_op_imm_32 at h
  simp only [Except.map] at h
  split at h
  · exact absurd h (by simp)
  · next v heq =>
      cases h
      split_ifs at heq
      all_goals cases heq
      all_goals simp [memFlagClass, isLoadOp, isStoreOp]

theorem decode_store_memFlagClass (w : Nat) (itl : IFD)
    (h : decode_store w = .ok itl) : memFlagClass itl := by
  unfold decode_store at h
  simp only [Except.map] at h
  split at h
  · exact absurd h (by simp)
  · next v heq =>
      cases h
      split_ifs at heq
      all_goals cases heq
      all_goals simp [memFlagClass, isLoadOp, isStoreOp]

set_option maxHeartbeats 1600000 in
theorem decode_op_memFlagClass (w : Nat) (itl : IFD)
    (h : decode_op w = .ok itl) : memFlagClass itl := by
  unfold decode_op at h
  simp only [Except.map] at h
  split at h
  · exact absurd h (by simp)
  · next v heq =>
      cases h
      split_ifs at heq
      all_goals cases heq
      all_goals simp [memFlagClass, isLoadOp, isStoreOp]

theorem decode_lui_memFlagClass (w : Nat) (itl : IFD)
    (h : decode_lui w = .ok itl) : memFlagClass itl := by
  unfold decode_lui at h
  cases h
  simp [memFlagClass, isLoadOp, isStoreOp]

set_option maxHeartbeats 1600000 in
theorem decode_op_32_memFlagClass (w : Nat) (itl : IFD)
    (h : decode_op_32 w = .ok itl) : memFlagClass itl := by
  unfold decode_op_32 at h
  simp only [Except.map] at h
  split at h
  · exact absurd h (by simp)
  · next v heq =>
      cases h
      split_ifs at heq
      all_goals cases heq
      all_goals simp [memFlagClass, isLoadOp, isStoreOp]

theorem decode_branch_memFlagClass (w : Nat) (itl : IFD)
    (h : decode_branch w = .ok itl) : memFlagClass itl := by
  unfold decode_branch at h
  simp only [Except.map] at h
  split at h
  · exact absurd h (by simp)
  · next v heq =>
      cases h
      split_ifs at heq
      all_goals cases heq
      all_goals simp [memFlagClass, isLoadOp, isStoreOp]

theorem decode_jalr_memFlagClass (w : Nat) (itl : IFD)
    (h : decode_jalr w = .ok itl) : memFlagClass itl := by
  unfold decode_jalr at h
  split at h
  · cases h; simp [memFlagClass, isLoadOp, isStoreOp]
  · exact absurd h (by simp)

theorem decode_jal_memFlagClass (w : Nat) (itl : IFD)
    (h : decode_jal w = .ok itl) : memFlagClass itl := by
  unfold decode_jal at h
  cases h
  simp [memFlagClass, isLoadOp, isStoreOp]

set_option maxHeartbeats 1000000 in
theorem decode_system_memFlagClass (w : Nat) (itl : IFD)
    (h : decode_system w = .ok itl) : memFlagClass itl := by
  unfold decode_system at h
  simp only [Except.map] at h
  split at h
  · exact absurd h (by simp)
  · next v heq =>
      cases h
      split_ifs at heq
      all_goals cases heq
      all_goals simp [memFlagClass, isLoadOp, isStoreOp]

set_option maxHeartbeats 4000000 in
/-- C10: every pipeline latch produced by the fetch stage's instruction
interpretation has `mem_read` set exactly for loads and `mem_write` set
exactly for stores, never both, so the `!(mem_read & mem_write)` assertion
at the start of the MEM stage cannot fire on such a latch. -/
theorem inst_interpret_memFlagClass (pc w : Nat) (itl : IFD)
    (h : inst_interpret pc w = .ok itl) : memFlagClass itl := by
  unfold inst_interpret at h
  simp only [Except.map] at h
  split at h
  · exact absurd h (by simp)
  · next v heq =>
      cases h
      have hv : memFlagClass v := by
        repeat split at heq
        all_goals try cases heq
        all_goals first
          | exact decode_load_memFlagClass w v heq
          | exact decode_op_imm_memFlagClass w v heq
          | exact decode_op_auipc_memFlagClass w v heq
          | exact decode_op_imm_32_memFlagClass w v heq
          | exact decode_store_memFlagClass w v heq
          | exact decode_op_memFlagClass w v heq
          | exact decode_lui_memFlagClass w v heq
          | exact decode_op_32_memFlagClass w v heq
          | exact decode_branch_memFlagClass w v heq
          | exact decode_jalr_memFlagClass w v heq
          | exact decode_jal_memFlagClass w v heq
          | exact decode_system_memFlagClass w v heq
          | simp [memFlagClass, isLoadOp, isStoreOp]
      simpa [memFlagClass] using hv

/-- The latch fetched for the word `ld x1, 0(x2)`. -/
def ldProbeLatch : IFD := ((inst_interpret 0 0x00013083).toOption).getD IFD.default

/-- The latch fetched for the word `sd x1, 0(x2)`. -/
def sdProbeLatch : IFD := ((inst_interpret 0 0x00113023).toOption).getD IFD.default

/-- The latch fetched for the word `addi x1, x0, 7`. -/
def addiProbeLatch : IFD := ((inst_interpret 0 0x00700093).toOption).getD IFD.default

set_option maxHeartbeats 2000000 in
/-- Witness for C10 at concrete words: a load (`ld x1, 0(x2)`), a store
(`sd x1, 0(x2)`) and an ALU instruction (`addi x1, x0, 7`). -/
theorem inst_interpret_memFlagClass_witness :
    (inst_interpret 0 0x00013083 = .ok ldProbeLatch ∧ memFlagClass ldProbeLatch) ∧
    (inst_interpret 0 0x00113023 = .ok sdProbeLatch ∧ memFlagClass sdProbeLatch) ∧
    (inst_interpret 0 0x00700093 = .ok addiProbeLatch ∧ memFlagClass addiProbeLatch) := by
  have h1 : inst_interpret 0 0x00013083 = .ok ldProbeLatch := by rfl
  have h2 : inst_interpret 0 0x00113023 = .ok sdProbeLatch := by rfl
  have h3 : inst_interpret 0 0x00700093 = .ok addiProbeLatch := by rfl
  exact ⟨⟨h1, inst_interpret_memFlagClass 0 _ _ h1⟩,
         ⟨h2, inst_interpret_memFlagClass 0 _ _ h2⟩,
         ⟨h3, inst_interpret_memFlagClass 0 _ _ h3⟩⟩

/-- Modelled from the spec: the RAS side of the execute stage.
`multi_stage/cpu.rs` passes `Some(&mut self.ras)` as a fourth argument to
`exec`, but the `exec` under `src/` (`multi_stage/exec.rs`) takes only
three arguments and never touches a RAS, so the pushing half is not in the
sources.  Spec section 4.7: "Push the fall-through address on any `jal`
`rd=1` (call)"; the fall-through address of the instruction at `pc` is
`pc + 4`. -/
def execRasUpdate (d : IDE) (ras : List Nat) : List Nat :=
  if d.exec_flags.alu_op = .jal ∧ d.rd = 1 then wadd d.pc 4 :: ras else ras

/-- C4 (amended): the spec-modelled execute-stage RAS push adds the
fall-through address for every `jal` with `rd = 1`; the RAS pop for the
canonical return pattern happens in the fetch stage's `branch_predict`,
and only when the BTB already holds an entry for the return's PC — on a
BTB miss (first encounter) the fetched (and subsequently executed) return
does not pop the RAS. -/
theorem ras_push_on_call_pop_on_ret_with_btb_hit :
    (∀ (d : IDE) (ras : List Nat), d.exec_flags.alu_op = .jal → d.rd = 1 →
        execRasUpdate d ras = wadd d.pc 4 :: ras) ∧
    (∀ (itl : IFD) (bht : BHT) (btb : BTB) (ras : List Nat) (t : Nat),
        itl.exec_flags.alu_op = .jalr → itl.raw_inst = RET_PATTERN →
        btb.query_target itl.pc = some t →
        (branch_predict itl bht btb ras).2.2 = ras.tail ∧
        (branch_predict itl bht btb ras).1.branch_flags.predicted_target =
          ras.headD itl.pc ∧
        (branch_predict itl bht btb ras).1.branch_flags.predicted_src = true) ∧
    (∀ (itl : IFD) (bht : BHT) (btb : BTB) (ras : List Nat),
        itl.exec_flags.alu_op = .jalr → itl.raw_inst = RET_PATTERN →
        btb.query_target itl.pc = none →
        (branch_predict itl bht btb ras).2.2 = ras) := by
  refine ⟨?_, ?_, ?_⟩
  · intro d ras hop hrd
    unfold execRasUpdate
    rw [if_pos ⟨hop, hrd⟩]
  · intro itl bht btb ras t hop hraw hbtb
    unfold branch_predict
    rw [hop, hraw, hbtb]
    cases ras <;> simp [RET_PATTERN]
  · intro itl bht btb ras hop hraw hbtb
    unfold branch_predict
    rw [hop, hbtb]
    simp

/-- Witness for C4 at concrete inputs: a `jal ra` latch at pc 0x1000
pushes 0x1004, and the canonical return with a BTB entry pops [7, 9]
to [9]. -/
theorem ras_push_on_call_pop_on_ret_with_btb_hit_witness :
    execRasUpdate
        { IDE.default with
          exec_flags := { alu_op := .jal, alu_src := true }, rd := 1, pc := 0x1000 }
        [] = [0x1004] ∧
    (branch_predict
        { IFD.default with
          exec_flags := { alu_op := .jalr, alu_src := true }
          raw_inst := RET_PATTERN, pc := 0x2000 }
        { predict_policy := .twoBitsPredict, inner := fun _ => none }
        { inner := fun p => if p = 0x2000 then some 0x3000 else none }
        [7, 9]).2.2 = [9] := by
  constructor
  · have h := ras_push_on_call_pop_on_ret_with_btb_hit.1
      { IDE.default with
        exec_flags := { alu_op := .jal, alu_src := true }, rd := 1, pc := 0x1000 }
      [] rfl rfl
    rw [h]
    rfl
  · have h := (ras_push_on_call_pop_on_ret_with_btb_hit.2.1
      { IFD.default with
        exec_flags := { alu_op := .jalr, alu_src := true }
        raw_inst := RET_PATTERN, pc := 0x2000 }
      { predict_policy := .twoBitsPredict, inner := fun _ => none }
      { inner := fun p => if p = 0x2000 then some 0x3000 else none }
      [7, 9] 0x3000 rfl rfl (by simp [BTB.query_target])).1
    rw [h]
    rfl

/-- The latch the fetch stage interprets for the canonical return word
`jalr zero, 0(ra)` (0x00008067) at pc 0x2000. -/
def retProbeLatch : IFD := ((inst_interpret 0x2000 0x00008067).toOption).getD IFD.default

/-- Counterexample for C4 as stated: the canonical return is fetched (and
will be executed) while the BTB has no entry for its PC, and the RAS is
not popped — it stays [42]. -/
theorem ras_pop_on_ret_counterexample :
    inst_interpret 0x2000 0x00008067 = .ok retProbeLatch ∧
    retProbeLatch.raw_inst = 0x00008067 ∧
    retProbeLatch.exec_flags.alu_op = .jalr ∧
    (branch_predict retProbeLatch
        { predict_policy := .twoBitsPredict, inner := fun _ => none }
        { inner := fun _ => none } [42]).2.2 = [42] := by
  refine ⟨by rfl, by rfl, by rfl, by rfl⟩

/-- C5 (amended): in the fetch stage under dynamic prediction, a fetched
unconditional `jal` leaves fetch with `predicted_src = true` and
`predicted_target` equal to the BTB entry when the BTB has one for the
jal's PC; on a BTB miss it leaves with `predicted_src = false` (not true
as the claim states) and `predicted_target = 0`.  The RAS is untouched
either way. -/
theorem fetch_jal_prediction (itl : IFD) (bht : BHT) (btb : BTB) (ras : List Nat)
    (hop : itl.exec_flags.alu_op = .jal)
    (htgt : itl.branch_flags.predicted_target = 0) :
    (∀ t, btb.query_target itl.pc = some t →
        (branch_predict itl bht btb ras).1.branch_flags.predicted_src = true ∧
        (branch_predict itl bht btb ras).1.branch_flags.predicted_target = t) ∧
    (btb.query_target itl.pc = none →
        (branch_predict itl bht btb ras).1.branch_flags.predicted_src = false ∧
        (branch_predict itl bht btb ras).1.branch_flags.predicted_target = 0) ∧
    (branch_predict itl bht btb ras).2.2 = ras := by
  refine ⟨?_, ?_, ?_⟩
  · intro t hbtb
    unfold branch_predict
    rw [hop, hbtb]
    simp
  · intro hbtb
    unfold branch_predict
    rw [hop, hbtb]
    simp [htgt]
  · unfold branch_predict
    rw [hop]
    cases hbtb : btb.query_target itl.pc <;> simp [hbtb]

/-- Witness for C5 (amended) at a concrete fetched `jal` latch with a BTB
hit at its PC. -/
theorem fetch_jal_prediction_witness :
    (branch_predict
        { IFD.default with
          exec_flags := { alu_op := .jal, alu_src := true }
          branch_flags :=
            { branch := true, pc_src := true, predicted_src := false, predicted_target := 0 }
          pc := 0x1000 }
        { predict_policy := .oneBitPredict, inner := fun _ => none }
        { inner := fun p => if p = 0x1000 then some 0x4000 else none }
        []).1.branch_flags.predicted_src = true := by
  exact ((fetch_jal_prediction
    { IFD.default with
      exec_flags := { alu_op := .jal, alu_src := true }
      branch_flags :=
        { branch := true, pc_src := true, predicted_src := false, predicted_target := 0 }
      pc := 0x1000 }
    { predict_policy := .oneBitPredict, inner := fun _ => none }
    { inner := fun p => if p = 0x1000 then some 0x4000 else none }
    [] rfl rfl).1 0x4000 (by simp [BTB.query_target])).1

/-- The latch the fetch stage interprets for `jal ra, +8` (0x008000EF)
at pc 0x1000. -/
def jalProbeLatch : IFD := ((inst_interpret 0x1000 0x008000EF).toOption).getD IFD.default

/-- Counterexample for C5 as stated: a fetched `jal` whose PC misses the
BTB leaves fetch with `predicted_src = false`, not true. -/
theorem fetch_jal_prediction_counterexample :
    inst_interpret 0x1000 0x008000EF = .ok jalProbeLatch ∧
    jalProbeLatch.exec_flags.alu_op = .jal ∧
    (branch_predict jalProbeLatch
        { predict_policy := .twoBitsPredict, inner := fun _ => none }
        { inner := fun _ => none } []).1.branch_flags.predicted_src = false := by
  refine ⟨by rfl, by rfl, by rfl⟩

/-- An ID/EX latch carrying a divide-family instruction with explicit
source values (as produced by decode for an R-type op). -/
def divFamilyLatch (op : Inst64) (a b : Nat) : IDE :=
  { IDE.default with
    exec_flags := { alu_op := op, alu_src := false }
    wb_flags := { mem_to_reg := true }
    rs1 := 1, rs2 := 2, rd := 3
    src1 := a, src2 := b }

/-- C2 evaluation at the failing input (code_bug): `remw` whose `rs2`
value is 2^32 (low 32 bits zero, full value nonzero) passes the guard —
which tests the full 64-bit `src2` instead of the truncated divisor the
arm actually divides by — and then panics on `wrapping_rem` by zero,
instead of raising DividedByZero.  `divw` at the same operands checks the
truncated divisor and raises DividedByZero as the claim states; the 64-bit
ops and the zero-divisor cases behave as claimed.  The single-cycle
`exec_inst` arm has the same mismatch. -/
theorem remw_zero_low_divisor_panics :
    exec (divFamilyLatch .remw 5 (2 ^ 32)) = .error .panicked ∧
    exec (divFamilyLatch .remuw 5 (2 ^ 32)) = .error .panicked ∧
    exec (divFamilyLatch .divw 5 (2 ^ 32)) = .error .dividedByZero ∧
    exec (divFamilyLatch .divuw 5 (2 ^ 32)) = .error .dividedByZero ∧
    exec (divFamilyLatch .div 5 0) = .error .dividedByZero ∧
    exec (divFamilyLatch .divu 5 0) = .error .dividedByZero ∧
    exec (divFamilyLatch .rem 5 0) = .error .dividedByZero ∧
    exec (divFamilyLatch .remu 5 0) = .error .dividedByZero ∧
    exec (divFamilyLatch .remw 5 0) = .error .dividedByZero ∧
    exec (divFamilyLatch .remuw 5 0) = .error .dividedByZero ∧
    (execCalc
        { running := true
          regs := updFn (updFn (fun _ => 0) 1 5) 2 (2 ^ 32)
          pc := 0x1000
          vm := { bytes := fun _ => 0, ld_start := 0, size := 0 } }
        { raw_inst := 0, inst := .remw, rs1 := 1, rs2 := 2, rs3 := 0, rd := 3
          imm := 0, pc := 0, src1 := 0, src2 := 0, src3 := 0 }).isOk = false := by
  refine ⟨by rfl, by rfl, by rfl, by rfl, by rfl, by rfl, by rfl, by rfl, by rfl, by rfl, by rfl⟩

/-- The word for `slliw x1, x1, 0` with instruction bit 25 (the sixth
shift-amount bit) illegally set. -/
def SLLIW_BIT25_WORD : Nat := 0x0200909B

/-- The latch the fetch stage interprets for `SLLIW_BIT25_WORD`. -/
def slliwBit25Latch : IFD := ((inst_interpret 0 SLLIW_BIT25_WORD).toOption).getD IFD.default

/-- The word for `slli x1, x1, 33` (a 6-bit RV64 shift amount). -/
def SLLI_33_WORD : Nat := 0x02109093

/-- The latch the fetch stage interprets for `SLLI_33_WORD`. -/
def slli33Latch : IFD := ((inst_interpret 0 SLLI_33_WORD).toOption).getD IFD.default

/-- C3 evaluation at the failing input (code_bug): a `-W` immediate shift
whose encoded shift amount has instruction bit 25 set does NOT fail with
IllegalInstruction.  The OP_IMM_32 decoder takes the immediate from the
five-bit `rs2` field, so bit 25 never reaches the execute stage's
`trunc_to_5_bit_and_check` guard: the `slliw` encoding with bit 25 set
decodes as a plain `slliw` with shamt 0 and executes normally (writing
x1 = 1 here), while the `srliw` encoding with bit 25 set dies with a
Decode error, not IllegalInstruction.  The second half of the claim holds:
`slli` uses all six low bits of the shift amount (shamt 33 shifts by 33). -/
theorem slliw_bit25_not_illegal :
    inst_interpret 0 SLLIW_BIT25_WORD = .ok slliwBit25Latch ∧
    slliwBit25Latch.exec_flags.alu_op = .slliw ∧
    slliwBit25Latch.imm = 0 ∧
    (exec (decodeStage (updFn (fun _ => 0) 1 1) slliwBit25Latch)).map
        (fun o => o.1.alu_out) = .ok 1 ∧
    inst_interpret 0 0x0210D09B = .error .decodeErr ∧
    inst_interpret 0 SLLI_33_WORD = .ok slli33Latch ∧
    slli33Latch.exec_flags.alu_op = .slli ∧
    slli33Latch.imm = 33 ∧
    (exec (decodeStage (updFn (fun _ => 0) 1 1) slli33Latch)).map
        (fun o => o.1.alu_out) = .ok (2 ^ 33) := by
  refine ⟨by rfl, by rfl, by rfl, by rfl, by rfl, by rfl, by rfl, by rfl, by rfl⟩

set_option maxRecDepth 8192 in
/-- C8: register x0 reads as 0 after every commit — at the end of every
successful single-cycle `exec_inst` step and of every successful pipelined
`clock` iteration, reading register index 0 yields 0, regardless of the
instruction and of its `rd` field (both commit tails end by writing 0 into
register 0). -/
theorem x0_zero_after_commit :
    (∀ (s : SState) (e : EIN), (exec_inst s e).1 = .ok () →
        ((exec_inst s e).2).regs 0 = 0) ∧
    (∀ (dhp : DataHazardPolicy) (cp : ControlPolicy) (s s1 : PipeState),
        clockStep dhp cp s = .ok s1 → s1.regs 0 = 0) := by
  constructor
  · intro s e h
    unfold exec_inst at h ⊢
    cases hc : execCalc s e with
    | error es => rw [hc] at h; exact absurd h (by simp)
    | ok out => simp [updFn]
  · intro dhp cp s s1 h
    unfold clockStep at h
    simp only [] at h
    split at h
    · exact absurd h (by simp)
    · split at h
      · exact absurd h (by simp)
      · rw [Except.ok.injEq] at h
        rw [← h]
        unfold commitPhase
        simp [updFn]

/-- Witness for C8: a concrete `addi x1, x0, 7` single-cycle step and a
concrete pipeline clock from the initial state, both leaving x0 = 0. -/
def c8SState : SState :=
  { running := true, regs := fun _ => 0, pc := 0x1000
    vm := { bytes := fun _ => 0, ld_start := 0x1000, size := 16 } }

/-- The EIN for `addi x1, x0, 7` as the single-cycle decoder produces it. -/
def c8EIN : EIN := (sc_decode 0x00700093).toOption.getD
  { raw_inst := 0, inst := .noop, rs1 := 0, rs2 := 0, rs3 := 0, rd := 0
    imm := 0, pc := 0, src1 := 0, src2 := 0, src3 := 0 }

/-- The pipeline state after one clock from the initial state on an empty
memory image. -/
def c8PipeResult : PipeState :=
  ((clockStep .dataForward .alwaysNotTaken
      (initPipeState { bytes := fun _ => 0, ld_start := 0x1000, size := 16 }
        .oneBitPredict 0x1000)).toOption).getD
    (initPipeState { bytes := fun _ => 0, ld_start := 0x1000, size := 16 }
      .oneBitPredict 0x1000)

theorem x0_zero_after_commit_witness :
    ((exec_inst c8SState c8EIN).1 = .ok () ∧ ((exec_inst c8SState c8EIN).2).regs 0 = 0) ∧
    (clockStep .dataForward .alwaysNotTaken
        (initPipeState { bytes := fun _ => 0, ld_start := 0x1000, size := 16 }
          .oneBitPredict 0x1000) = .ok c8PipeResult ∧
      c8PipeResult.regs 0 = 0) := by
  have h1 : (exec_inst c8SState c8EIN).1 = .ok () := by rfl
  have h2 : clockStep .dataForward .alwaysNotTaken
      (initPipeState { bytes := fun _ => 0, ld_start := 0x1000, size := 16 }
        .oneBitPredict 0x1000) = .ok c8PipeResult := by rfl
  exact ⟨⟨h1, x0_zero_after_commit.1 c8SState c8EIN h1⟩,
         ⟨h2, x0_zero_after_commit.2 .dataForward .alwaysNotTaken _ _ h2⟩⟩

/-- The memory image of a two-word program at entry 0x1000: `ebreak`
(0x00100073) followed by a dead `ecall` word (0x00000073), with the rest
of the zero-initialised buffer. -/
def c1vm : VMem :=
  { bytes := fun a =>
      if a = 0 then 0x73 else if a = 1 then 0x00 else if a = 2 then 0x10
      else if a = 3 then 0x00 else if a = 4 then 0x73 else 0
    ld_start := 0x1000
    size := 0x900000 }

/-- C1 evaluation at the failing input (code_bug): on the program
`ebreak; ecall` the single-cycle core halts at the `ebreak` (surfacing
`Error::Execute`, with `running = false` and exit register x10 = 0, the
"good" trap), but the pipelined core keeps fetching past the halting
`ebreak` and executes the dead `ecall` word in EX one cycle before the
`ebreak` would retire in WB, hitting `todo!()` and aborting the whole run
— under every data-hazard and control-policy combination.  The two runs
therefore do not both complete with the same final register file. -/
theorem pipeline_overruns_halting_ebreak :
    (∀ (dhp : DataHazardPolicy) (cp : ControlPolicy),
        pipeRun dhp cp 10 (initPipeState c1vm .twoBitsPredict 0x1000) =
          .error .panicked) ∧
    (singleRun 10 (initSState c1vm 0x1000)).1 = .error .executeBreak ∧
    (singleRun 10 (initSState c1vm 0x1000)).2.running = false ∧
    (singleRun 10 (initSState c1vm 0x1000)).2.regs 10 = 0 := by
  refine ⟨?_, by rfl, by rfl, by rfl⟩
  intro dhp cp
  cases dhp <;> cases cp <;> rfl

/-!
## The hazard-free addi program (claim C6)

Closed forms for the pipeline state along a run of N `addi xk, x0, imm`
instructions followed by one `ebreak` (with the zero padding the loader
leaves after the program).  Such a program has no data or control hazards:
every source register field is x0.
-/

/-- The latch the fetch stage produces for `addi rd, x0, imm`
(cf. `decode_op_imm`). -/
def addiLatch (pc w rd imm : Nat) : IFD :=
  { raw_inst := w
    decode_flags := { sext := .i }
    exec_flags := { alu_op := .addi, alu_src := true }
    mem_flags := { mem_read := false, mem_write := false }
    wb_flags := { mem_to_reg := true }
    branch_flags :=
      { branch := false, pc_src := false, predicted_src := false, predicted_target := 0 }
    pc := pc, rs1 := 0, rs2 := 0, rs3 := 0, rd := rd, imm := imm }

/-- The latch the fetch stage produces for `ebreak` (cf. `decode_system`). -/
def ebreakLatch (pc w : Nat) : IFD :=
  { raw_inst := w
    decode_flags := { sext := .none }
    exec_flags := { alu_op := .ebreak, alu_src := false }
    mem_flags := { mem_read := false, mem_write := false }
    wb_flags := { mem_to_reg := false }
    branch_flags :=
      { branch := false, pc_src := false, predicted_src := false, predicted_target := 0 }
    pc := pc, rs1 := 0, rs2 := 0, rs3 := 0, rd := 0, imm := 0 }

/-- The IF/ID latch fetched for instruction slot `i` of the program. -/
def progLatch (vm : VMem) (N : Nat) (rdf immf : Nat → Nat) (i : Nat) : IFD :=
  if i < N then addiLatch (4 * i) (fetch_inst_pipeline vm (4 * i)) (rdf i) (immf i)
  else if i = N then ebreakLatch (4 * N) (fetch_inst_pipeline vm (4 * N))
  else IFD.default

/-- IF/ID latch after k clocks. -/
def fdAt (vm : VMem) (N : Nat) (rdf immf : Nat → Nat) : Nat → IFD
  | 0 => IFD.default
  | k + 1 => progLatch vm N rdf immf k

/-- ID/EX latch after k clocks (all source register fields are x0, which
always reads 0, so the decode stage reads from the constant-zero file). -/
def deAt (vm : VMem) (N : Nat) (rdf immf : Nat → Nat) : Nat → IDE
  | 0 => IDE.default
  | k + 1 => decodeStage (fun _ => 0) (fdAt vm N rdf immf k)

/-- The execute stage's EX/MEM latch for a no-memory, no-branch, no-mul/div
ID/EX latch (the specialisation of `exec` proved in `exec_benign`). -/
def aluOutBenign (d : IDE) : Nat :=
  match d.exec_flags.alu_op with
  | .addi => wadd d.src1 d.imm
  | _ => 0

/-- The EX/MEM latch `exec` produces from a benign ID/EX latch. -/
def emOf (d : IDE) : IEM :=
  { raw_inst := d.raw_inst
    mem_flags := d.mem_flags
    wb_flags := d.wb_flags
    branch_flags := d.branch_flags
    pc := d.pc, rs1 := d.rs1, rs2 := d.rs2, rs3 := d.rs3, rd := d.rd
    imm := d.imm
    alu_out := aluOutBenign d
    mem_addr := 0, mem_bitwidth := 0, mem_sext_to := 0
    m2m_forward := false, m2m_forward_val := 0
    alu_op := d.exec_flags.alu_op }

/-- The MEM/WB latch `memStage` produces from a no-memory-access EX/MEM
latch (proved in `memStage_benign`). -/
def mwOf (e : IEM) : IMW :=
  { raw_inst := e.raw_inst
    wb_flags := e.wb_flags
    branch_flags := e.branch_flags
    mem_read := e.mem_flags.mem_read
    pc := e.pc, rs1 := e.rs1, rs2 := e.rs2, rs3 := e.rs3, rd := e.rd
    imm := e.imm
    regval := if e.m2m_forward then e.m2m_forward_val else e.alu_out
    alu_op := e.alu_op }

/-- EX/MEM latch after k clocks. -/
def emAt (vm : VMem) (N : Nat) (rdf immf : Nat → Nat) : Nat → IEM
  | 0 => IEM.default
  | k + 1 => emOf (deAt vm N rdf immf k)

/-- MEM/WB latch after k clocks. -/
def mwAt (vm : VMem) (N : Nat) (rdf immf : Nat → Nat) : Nat → IMW
  | 0 => IMW.default
  | k + 1 => mwOf (emAt vm N rdf immf k)

/-- Register file after k clocks. -/
def regsAt (vm : VMem) (N : Nat) (rdf immf : Nat → Nat) : Nat → (Nat → Nat)
  | 0 => fun _ => 0
  | k + 1 =>
      updFn (writebackStage (mwAt vm N rdf immf k) (regsAt vm N rdf immf k)).1 0 0

/-- Running flag after k clocks. -/
def runningAt (vm : VMem) (N : Nat) (rdf immf : Nat → Nat) : Nat → Bool
  | 0 => true
  | k + 1 => (writebackStage (mwAt vm N rdf immf k) (regsAt vm N rdf immf k)).2

/-- Executed-instruction counter after k clocks. -/
def executedAt (vm : VMem) (N : Nat) (rdf immf : Nat → Nat) : Nat → Nat
  | 0 => 0
  | k + 1 =>
      executedAt vm N rdf immf k +
        (if (emAt vm N rdf immf (k + 1)).alu_op ≠ .noop then 1 else 0)

/-- Five Normal pipeline-state slots. -/
def rep5 : List PipelineState := [.normal, .normal, .normal, .normal, .normal]

/-- The full pipeline state after k clocks of the addi program run. -/
def stateAt (vm : VMem) (pp : PredictPolicy) (N : Nat) (rdf immf : Nat → Nat)
    (k : Nat) : PipeState :=
  { running := runningAt vm N rdf immf k
    clock := k
    regs := regsAt vm N rdf immf k
    pc := 4 * k
    vm := vm
    fd := fdAt vm N rdf immf k
    de := deAt vm N rdf immf k
    em := emAt vm N rdf immf k
    mw := mwAt vm N rdf immf k
    mwStates := rep5, eStates := rep5, dStates := rep5, fStates := rep5, pcStates := rep5
    data_hazard_count := 0
    data_hazard_delayed_cycles := 0
    control_hazard_count := 0
    control_hazard_delayed_cycles := 0
    executed_inst_count := executedAt vm N rdf immf k
    bht := { predict_policy := pp, inner := fun _ => none }
    btb := { inner := fun _ => none }
    ras := [] }

/-- The benign opcodes of the hazard-free program. -/
def benignOp (op : Inst64) : Prop := op = .addi ∨ op = .ebreak ∨ op = .noop

/-- An IF/ID latch of the hazard-free program: no memory flags, no branch
flags, both source register fields x0, benign opcode. -/
def benignFD (f : IFD) : Prop :=
  f.mem_flags = { mem_read := false, mem_write := false } ∧
  f.rs1 = 0 ∧ f.rs2 = 0 ∧
  f.branch_flags =
    { branch := false, pc_src := false, predicted_src := false, predicted_target := 0 } ∧
  benignOp f.exec_flags.alu_op

/-- A benign ID/EX latch additionally has both forward selectors clear. -/
def benignDE (d : IDE) : Prop :=
  d.mem_flags = { mem_read := false, mem_write := false } ∧
  d.rs1 = 0 ∧ d.rs2 = 0 ∧
  d.branch_flags =
    { branch := false, pc_src := false, predicted_src := false, predicted_target := 0 } ∧
  benignOp d.exec_flags.alu_op ∧
  d.forward_a = 0 ∧ d.forward_b = 0

/-- A benign EX/MEM latch: no memory access, no branch, no m2m forward. -/
def benignEM (e : IEM) : Prop :=
  e.mem_flags = { mem_read := false, mem_write := false } ∧
  e.branch_flags =
    { branch := false, pc_src := false, predicted_src := false, predicted_target := 0 } ∧
  e.m2m_forward = false ∧
  benignOp e.alu_op

/-- A benign MEM/WB latch: not a load, benign opcode. -/
def benignMW (m : IMW) : Prop := m.mem_read = false ∧ benignOp m.alu_op

theorem benignFD_addiLatch (pc w rd imm : Nat) : benignFD (addiLatch pc w rd imm) := by
  exact ⟨rfl, rfl, rfl, rfl, Or.inl rfl⟩

theorem benignFD_ebreakLatch (pc w : Nat) : benignFD (ebreakLatch pc w) := by
  exact ⟨rfl, rfl, rfl, rfl, Or.inr (Or.inl rfl)⟩

theorem benignFD_default : benignFD IFD.default := by
  exact ⟨rfl, rfl, rfl, rfl, Or.inr (Or.inr rfl)⟩

theorem benignFD_fdAt (vm : VMem) (N : Nat) (rdf immf : Nat → Nat) (j : Nat) :
    benignFD (fdAt vm N rdf immf j) := by
  cases j with
  | zero => exact benignFD_default
  | succ i =>
      show benignFD (progLatch vm N rdf immf i)
      unfold progLatch
      by_cases h1 : i < N
      · rw [if_pos h1]
        exact benignFD_addiLatch _ _ _ _
      · rw [if_neg h1]
        by_cases h2 : i = N
        · rw [if_pos h2]
          exact benignFD_ebreakLatch _ _
        · rw [if_neg h2]
          exact benignFD_default

theorem benignDE_decodeStage (r : Nat → Nat) (f : IFD) (h : benignFD f) :
    benignDE (decodeStage r f) := by
  obtain ⟨hm, h1, h2, hb, ho⟩ := h
  exact ⟨hm, h1, h2, hb, ho, rfl, rfl⟩

theorem benignDE_deAt (vm : VMem) (N : Nat) (rdf immf : Nat → Nat) (k : Nat) :
    benignDE (deAt vm N rdf immf k) := by
  cases k with
  | zero => exact ⟨rfl, rfl, rfl, rfl, Or.inr (Or.inr rfl), rfl, rfl⟩
  | succ j => exact benignDE_decodeStage _ _ (benignFD_fdAt vm N rdf immf j)

theorem benignEM_emOf (d : IDE) (h : benignDE d) : benignEM (emOf d) := by
  obtain ⟨hm, _, _, hb, ho, _, _⟩ := h
  exact ⟨hm, hb, rfl, ho⟩

theorem benignEM_emAt (vm : VMem) (N : Nat) (rdf immf : Nat → Nat) (k : Nat) :
    benignEM (emAt vm N rdf immf k) := by
  cases k with
  | zero => exact ⟨rfl, rfl, rfl, Or.inr (Or.inr rfl)⟩
  | succ j => exact benignEM_emOf _ (benignDE_deAt vm N rdf immf j)

theorem benignMW_mwOf (e : IEM) (h : benignEM e) : benignMW (mwOf e) := by
  obtain ⟨hm, _, _, ho⟩ := h
  refine ⟨?_, ho⟩
  show e.mem_flags.mem_read = false
  rw [hm]

theorem benignMW_mwAt (vm : VMem) (N : Nat) (rdf immf : Nat → Nat) (k : Nat) :
    benignMW (mwAt vm N rdf immf k) := by
  cases k with
  | zero => exact ⟨rfl, Or.inr (Or.inr rfl)⟩
  | succ j => exact benignMW_mwOf _ (benignEM_emAt vm N rdf immf j)

theorem regsAt_x0 (vm : VMem) (N : Nat) (rdf immf : Nat → Nat) (k : Nat) :
    regsAt vm N rdf immf k 0 = 0 := by
  cases k with
  | zero => rfl
  | succ j => simp [regsAt, updFn]

theorem extra_exec_cycles_benign (op : Inst64) (h : benignOp op) (a b : Nat)
    (op2 : Inst64) (c d : Nat) : extra_exec_cycles op a b op2 c d = 0 := by
  rcases h with h | h | h <;> rw [h] <;> rfl

/-- `exec` on a forward-free, branch-free, benign-opcode ID/EX latch
produces `emOf`, no branch, no taken pc_src, and the fall-through PCs. -/
theorem exec_benign (d : IDE)
    (hbf : d.branch_flags =
      { branch := false, pc_src := false, predicted_src := false, predicted_target := 0 })
    (hfa : d.forward_a = 0) (hfb : d.forward_b = 0)
    (hop : benignOp d.exec_flags.alu_op) :
    exec d = .ok (emOf d, false, false, wadd d.pc 4, wadd d.pc 4) := by
  rcases hop with hop | hop | hop <;>
    simp [exec, emOf, aluOutBenign, Except.map, hop, hbf, hfa, hfb]

/-- `memStage` on a no-memory-access EX/MEM latch. -/
theorem memStage_benign (vm : VMem) (e : IEM)
    (hm : e.mem_flags = { mem_read := false, mem_write := false }) :
    memStage vm e = (mwOf e, vm) := by
  simp [memStage, mwOf, hm]

/-- Fetching a word that interprets to an `addi rd, x0, imm` latch leaves
the predictor state untouched under every control policy (the opcode is
not a control instruction). -/
theorem fetchStage_addi (cp : ControlPolicy) (vm : VMem) (pc : Nat) (bht : BHT)
    (btb : BTB) (ras : List Nat) (w rd imm : Nat)
    (hint : inst_interpret pc (fetch_inst_pipeline vm pc) = .ok (addiLatch pc w rd imm)) :
    fetchStage cp vm pc bht btb ras = (addiLatch pc w rd imm, bht, ras) := by
  unfold fetchStage
  rw [hint]
  cases cp <;> simp [branch_predict, addiLatch]

/-- Fetching a word that interprets to an `ebreak` latch leaves the
predictor state untouched under every control policy. -/
theorem fetchStage_ebreak (cp : ControlPolicy) (vm : VMem) (pc : Nat) (bht : BHT)
    (btb : BTB) (ras : List Nat) (w : Nat)
    (hint : inst_interpret pc (fetch_inst_pipeline vm pc) = .ok (ebreakLatch pc w)) :
    fetchStage cp vm pc bht btb ras = (ebreakLatch pc w, bht, ras) := by
  unfold fetchStage
  rw [hint]
  cases cp <;> simp [branch_predict, ebreakLatch]

/-- Fetching a word that fails interpretation yields the default (noop)
latch and leaves the predictor state untouched. -/
theorem fetchStage_err (cp : ControlPolicy) (vm : VMem) (pc : Nat) (bht : BHT)
    (btb : BTB) (ras : List Nat) (e : InterpErr)
    (hint : inst_interpret pc (fetch_inst_pipeline vm pc) = .error e) :
    fetchStage cp vm pc bht btb ras = (IFD.default, bht, ras) := by
  unfold fetchStage
  rw [hint]

/-- The hazard-detection phase is inert on the hazard-free program: all
source register fields are x0, the ID/EX latch never reads memory, and
the MEM/WB latch is never a load.  Under DataForward the ID/EX latch
still receives the (unused) forwarded values. -/
theorem hazardPhase_benign (dhp : DataHazardPolicy) (s : PipeState)
    (hfd1 : s.fd.rs1 = 0) (hfd2 : s.fd.rs2 = 0)
    (hde1 : s.de.rs1 = 0) (hde2 : s.de.rs2 = 0)
    (hdem : s.de.mem_flags = { mem_read := false, mem_write := false })
    (hdefa : s.de.forward_a = 0) (hdefb : s.de.forward_b = 0)
    (hmwr : s.mw.mem_read = false) (dhc0 : Nat) :
    hazardPhase dhp s dhc0 =
      { dhc := dhc0, dhd := s.data_hazard_delayed_cycles
        dStates := s.dStates, fStates := s.fStates, pcStates := s.pcStates
        em := s.em
        de := match dhp with
          | .naiveStall => s.de
          | .dataForward =>
              { s.de with
                forward_a := 0
                forward_b := 0
                ex_mem_forward := s.em.alu_out
                mem_wb_forward := s.mw.regval } } := by
  cases dhp <;>
    by_cases h1 : s.de.rd = 0 <;> by_cases h2 : s.em.rd = 0 <;>
      by_cases h3 : s.mw.rd = 0 <;>
        simp [hazardPhase, hfd1, hfd2, hde1, hde2, hdem, hdefa, hdefb, hmwr, h1, h2, h3]

set_option maxHeartbeats 2000000 in
set_option maxRecDepth 16384 in
/-- One pipeline clock on a benign (hazard-free, non-control) state with
all pipeline-state windows Normal: no stall, no bubble, no flush — every
latch advances one stage, the PC advances by 4, the clock by 1, and the
hazard statistics and predictor state are untouched. -/
theorem benign_step (dhp : DataHazardPolicy) (cp : ControlPolicy) (s : PipeState)
    (fNew : IFD)
    (hfd : benignFD s.fd) (hde : benignDE s.de) (hem : benignEM s.em)
    (hmw : benignMW s.mw)
    (hmwS : s.mwStates = rep5) (heS : s.eStates = rep5) (hdS : s.dStates = rep5)
    (hfS : s.fStates = rep5) (hpS : s.pcStates = rep5)
    (hfetch : fetchStage cp s.vm s.pc s.bht s.btb s.ras = (fNew, s.bht, s.ras))
    (hfben : benignFD fNew) :
    clockStep dhp cp s = .ok
      { running := (writebackStage s.mw s.regs).2
        clock := s.clock + 1
        regs := updFn (writebackStage s.mw s.regs).1 0 0
        pc := wadd s.pc 4
        vm := s.vm
        fd := fNew
        de := decodeStage (writebackStage s.mw s.regs).1 s.fd
        em := emOf s.de
        mw := mwOf s.em
        mwStates := rep5
        eStates := rep5
        dStates := rep5
        fStates := rep5
        pcStates := rep5
        data_hazard_count := s.data_hazard_count
        data_hazard_delayed_cycles := s.data_hazard_delayed_cycles
        control_hazard_count := s.control_hazard_count
        control_hazard_delayed_cycles := s.control_hazard_delayed_cycles
        executed_inst_count :=
          s.executed_inst_count + (if s.de.exec_flags.alu_op ≠ .noop then 1 else 0)
        bht := s.bht
        btb := s.btb
        ras := s.ras } := by
  obtain ⟨hfdm, hfd1, hfd2, hfdb, hfdo⟩ := hfd
  obtain ⟨hdem, hde1, hde2, hdeb, hdeo, hdefa, hdefb⟩ := hde
  obtain ⟨hemm, hemb, hemm2, hemo⟩ := hem
  obtain ⟨hmwr, hmwo⟩ := hmw
  obtain ⟨hfbm, hfb1, hfb2, hfbb, hfbo⟩ := hfben
  have hhaz := hazardPhase_benign dhp s hfd1 hfd2 hde1 hde2 hdem hdefa hdefb hmwr
  have hmem := memStage_benign s.vm s.em hemm
  cases dhp with
  | naiveStall =>
      have hexec := exec_benign s.de hdeb hdefa hdefb hdeo
      simp [clockStep, commitPhase, hhaz, hmem, hexec, hfetch, emOf, aluOutBenign, mwOf,
        rotateStates, rep5, hdem, hdeb, hfbb, hmwS, heS, hdS, hfS, hpS,
        extra_exec_cycles_benign _ hdeo]
  | dataForward =>
      have hexec := exec_benign
        { raw_inst := s.de.raw_inst
          exec_flags := s.de.exec_flags
          mem_flags := { mem_read := false, mem_write := false }
          wb_flags := s.de.wb_flags
          branch_flags :=
            { branch := false, pc_src := false, predicted_src := false, predicted_target := 0 }
          pc := s.de.pc
          rs1 := s.de.rs1
          rs2 := s.de.rs2
          rs3 := s.de.rs3
          rd := s.de.rd
          src1 := s.de.src1
          src2 := s.de.src2
          imm := s.de.imm
          forward_a := 0
          forward_b := 0
          ex_mem_forward := s.em.alu_out
          mem_wb_forward := s.mw.regval } rfl rfl rfl hdeo
      simp [clockStep, commitPhase, hhaz, hmem, hexec, hfetch, emOf, aluOutBenign, mwOf,
        rotateStates, rep5, hdem, hdeb, hfbb, hmwS, heS, hdS, hfS, hpS,
        extra_exec_cycles_benign _ hdeo]

theorem emOf_alu_op (d : IDE) : (emOf d).alu_op = d.exec_flags.alu_op := rfl

theorem fdAt_succ (vm : VMem) (N : Nat) (rdf immf : Nat → Nat) (k : Nat) :
    fdAt vm N rdf immf (k + 1) = progLatch vm N rdf immf k := rfl

theorem deAt_succ (vm : VMem) (N : Nat) (rdf immf : Nat → Nat) (k : Nat) :
    deAt vm N rdf immf (k + 1) = decodeStage (fun _ => 0) (fdAt vm N rdf immf k) := rfl

theorem emAt_succ (vm : VMem) (N : Nat) (rdf immf : Nat → Nat) (k : Nat) :
    emAt vm N rdf immf (k + 1) = emOf (deAt vm N rdf immf k) := rfl

theorem mwAt_succ (vm : VMem) (N : Nat) (rdf immf : Nat → Nat) (k : Nat) :
    mwAt vm N rdf immf (k + 1) = mwOf (emAt vm N rdf immf k) := rfl

theorem regsAt_succ (vm : VMem) (N : Nat) (rdf immf : Nat → Nat) (k : Nat) :
    regsAt vm N rdf immf (k + 1) =
      updFn (writebackStage (mwAt vm N rdf immf k) (regsAt vm N rdf immf k)).1 0 0 := rfl

theorem runningAt_succ (vm : VMem) (N : Nat) (rdf immf : Nat → Nat) (k : Nat) :
    runningAt vm N rdf immf (k + 1) =
      (writebackStage (mwAt vm N rdf immf k) (regsAt vm N rdf immf k)).2 := rfl

theorem executedAt_succ (vm : VMem) (N : Nat) (rdf immf : Nat → Nat) (k : Nat) :
    executedAt vm N rdf immf (k + 1) =
      executedAt vm N rdf immf k +
        (if (emAt vm N rdf immf (k + 1)).alu_op ≠ .noop then 1 else 0) := rfl

/-- Decode only consults the register file at the latch's source fields;
when both are x0 and x0 reads 0 any such file acts like the zero file. -/
theorem decodeStage_regs_irrel (r : Nat → Nat) (f : IFD)
    (h1 : f.rs1 = 0) (h2 : f.rs2 = 0) (hr : r 0 = 0) :
    decodeStage r f = decodeStage (fun _ => 0) f := by
  simp [decodeStage, h1, h2, hr]

/-- Writeback never makes x0 nonzero. -/
theorem writebackStage_x0 (m : IMW) (regs : Nat → Nat) (h : regs 0 = 0) :
    (writebackStage m regs).1 0 = 0 := by
  by_cases hm : m.wb_flags.mem_to_reg = true
  · by_cases hrd : m.rd = 0
    · simp [writebackStage, updFn, hm, hrd]
    · simp [writebackStage, updFn, hm, hrd, h]
      intro h0
      exact absurd h0.symm hrd
  · simp [writebackStage, hm, h]

/-- At PC `4*k` the fetch stage of the addi program produces exactly
`progLatch k`, leaving predictor state alone. -/
theorem fetchStage_progLatch (cp : ControlPolicy) (vm : VMem) (N : Nat)
    (rdf immf : Nat → Nat)
    (Haddi : ∀ i, i < N → ∀ pc,
      inst_interpret pc (fetch_inst_pipeline vm (4 * i)) =
        .ok (addiLatch pc (fetch_inst_pipeline vm (4 * i)) (rdf i) (immf i)))
    (Hebr : ∀ pc,
      inst_interpret pc (fetch_inst_pipeline vm (4 * N)) =
        .ok (ebreakLatch pc (fetch_inst_pipeline vm (4 * N))))
    (Hpad : ∀ i, N < i → fetch_inst_pipeline vm (4 * i) = 0)
    (k : Nat) (bht : BHT) (btb : BTB) (ras : List Nat) :
    fetchStage cp vm (4 * k) bht btb ras = (progLatch vm N rdf immf k, bht, ras) := by
  by_cases h1 : k < N
  · unfold progLatch
    rw [if_pos h1]
    exact fetchStage_addi cp vm (4 * k) bht btb ras _ _ _ (Haddi k h1 (4 * k))
  · by_cases h2 : k = N
    · subst h2
      unfold progLatch
      rw [if_neg h1, if_pos rfl]
      exact fetchStage_ebreak cp vm (4 * k) bht btb ras _ (Hebr (4 * k))
    · have h3 : N < k := by omega
      unfold progLatch
      rw [if_neg h1, if_neg h2]
      refine fetchStage_err cp vm (4 * k) bht btb ras .fetchErr ?_
      rw [Hpad k h3]
      rfl

set_option maxRecDepth 16384 in
/-- One clock of the addi program run advances the closed-form state. -/
theorem stateAt_step (dhp : DataHazardPolicy) (cp : ControlPolicy) (vm : VMem)
    (pp : PredictPolicy) (N : Nat) (rdf immf : Nat → Nat)
    (Haddi : ∀ i, i < N → ∀ pc,
      inst_interpret pc (fetch_inst_pipeline vm (4 * i)) =
        .ok (addiLatch pc (fetch_inst_pipeline vm (4 * i)) (rdf i) (immf i)))
    (Hebr : ∀ pc,
      inst_interpret pc (fetch_inst_pipeline vm (4 * N)) =
        .ok (ebreakLatch pc (fetch_inst_pipeline vm (4 * N))))
    (Hpad : ∀ i, N < i → fetch_inst_pipeline vm (4 * i) = 0)
    (hbound : 4 * (N + 6) < 2 ^ 64) (k : Nat) (hk : k ≤ N + 5) :
    clockStep dhp cp (stateAt vm pp N rdf immf k) =
      .ok (stateAt vm pp N rdf immf (k + 1)) := by
  have hstep := benign_step dhp cp (stateAt vm pp N rdf immf k)
    (progLatch vm N rdf immf k)
    (benignFD_fdAt vm N rdf immf k)
    (benignDE_deAt vm N rdf immf k)
    (benignEM_emAt vm N rdf immf k)
    (benignMW_mwAt vm N rdf immf k)
    rfl rfl rfl rfl rfl
    (fetchStage_progLatch cp vm N rdf immf Haddi Hebr Hpad k _ _ _)
    (benignFD_fdAt vm N rdf immf (k + 1))
  have hpc : wadd (4 * k) 4 = 4 * (k + 1) := by
    have : 4 * k + 4 < 2 ^ 64 := by omega
    simp [wadd, M64]
    omega
  have hdec :
      decodeStage
          (writebackStage (mwAt vm N rdf immf k) (regsAt vm N rdf immf k)).1
          (fdAt vm N rdf immf k) =
        decodeStage (fun _ => 0) (fdAt vm N rdf immf k) :=
    decodeStage_regs_irrel _ _
      (benignFD_fdAt vm N rdf immf k).2.1
      (benignFD_fdAt vm N rdf immf k).2.2.1
      (writebackStage_x0 _ _ (regsAt_x0 vm N rdf immf k))
  rw [hstep]
  simp only [stateAt, runningAt_succ, regsAt_succ, executedAt_succ, deAt_succ,
    emAt_succ, mwAt_succ, fdAt_succ, emOf_alu_op, hpc, hdec]

/-- The opcode in program slot `i`. -/
def progOp (N i : Nat) : Inst64 :=
  if i < N then .addi else if i = N then .ebreak else .noop

theorem progLatch_op (vm : VMem) (N : Nat) (rdf immf : Nat → Nat) (i : Nat) :
    (progLatch vm N rdf immf i).exec_flags.alu_op = progOp N i := by
  unfold progLatch progOp
  by_cases h1 : i < N
  · rw [if_pos h1, if_pos h1]
    rfl
  · rw [if_neg h1, if_neg h1]
    by_cases h2 : i = N
    · rw [if_pos h2, if_pos h2]
      rfl
    · rw [if_neg h2, if_neg h2]
      rfl

theorem progOp_ebreak_iff (N i : Nat) : progOp N i = .ebreak ↔ i = N := by
  unfold progOp
  split_ifs with h1 h2 <;> simp <;> omega

theorem progOp_noop_iff (N i : Nat) : progOp N i = .noop ↔ N < i := by
  unfold progOp
  split_ifs with h1 h2 <;> simp <;> omega

theorem fdAt_op (vm : VMem) (N : Nat) (rdf immf : Nat → Nat) (k : Nat) :
    (fdAt vm N rdf immf k).exec_flags.alu_op =
      if k = 0 then .noop else progOp N (k - 1) := by
  cases k with
  | zero => rfl
  | succ j =>
      rw [fdAt_succ, progLatch_op]
      simp

theorem deAt_op (vm : VMem) (N : Nat) (rdf immf : Nat → Nat) (k : Nat) :
    (deAt vm N rdf immf k).exec_flags.alu_op =
      if k ≤ 1 then .noop else progOp N (k - 2) := by
  cases k with
  | zero => rfl
  | succ j =>
      have h : (deAt vm N rdf immf (j + 1)).exec_flags.alu_op =
          (fdAt vm N rdf immf j).exec_flags.alu_op := rfl
      rw [h, fdAt_op]
      by_cases hj : j = 0
      · subst hj
        rfl
      · rw [if_neg hj, if_neg (by omega : ¬ j + 1 ≤ 1)]
        congr 1

theorem emAt_op (vm : VMem) (N : Nat) (rdf immf : Nat → Nat) (k : Nat) :
    (emAt vm N rdf immf k).alu_op =
      if k ≤ 2 then .noop else progOp N (k - 3) := by
  cases k with
  | zero => rfl
  | succ j =>
      have h : (emAt vm N rdf immf (j + 1)).alu_op =
          (deAt vm N rdf immf j).exec_flags.alu_op := rfl
      rw [h, deAt_op]
      by_cases hj : j ≤ 1
      · rw [if_pos hj, if_pos (by omega : j + 1 ≤ 2)]
      · rw [if_neg hj, if_neg (by omega : ¬ j + 1 ≤ 2)]
        congr 1

theorem mwAt_op (vm : VMem) (N : Nat) (rdf immf : Nat → Nat) (k : Nat) :
    (mwAt vm N rdf immf k).alu_op =
      if k ≤ 3 then .noop else progOp N (k - 4) := by
  cases k with
  | zero => rfl
  | succ j =>
      have h : (mwAt vm N rdf immf (j + 1)).alu_op =
          (emAt vm N rdf immf j).alu_op := rfl
      rw [h, emAt_op]
      by_cases hj : j ≤ 2
      · rw [if_pos hj, if_pos (by omega : j + 1 ≤ 3)]
      · rw [if_neg hj, if_neg (by omega : ¬ j + 1 ≤ 3)]
        congr 1

/-- The running flag of the closed-form run: true until (and including)
clock N+4, false exactly at clock N+5, when the ebreak retires from WB. -/
theorem runningAt_eq (vm : VMem) (N : Nat) (rdf immf : Nat → Nat) (k : Nat) :
    runningAt vm N rdf immf k = !decide (k = N + 5) := by
  cases k with
  | zero =>
      have h0 : (0 : Nat) ≠ N + 5 := by omega
      simp [runningAt, h0]
  | succ j =>
      have hw : runningAt vm N rdf immf (j + 1) =
          decide ((mwAt vm N rdf immf j).alu_op ≠ .ebreak) := rfl
      rw [hw, mwAt_op]
      by_cases h4 : j ≤ 3
      · have h5 : ¬(j + 1 = N + 5) := by omega
        simp [h4, h5]
      · rw [if_neg h4]
        by_cases h5 : j - 4 = N
        · have h6 : j + 1 = N + 5 := by omega
          simp [progOp_ebreak_iff, h5, h6]
        · have h6 : ¬(j + 1 = N + 5) := by omega
          simp [progOp_ebreak_iff, h5, h6]

/-- Closed form of the executed-instruction counter: the EX stage sees its
first instruction at clock 3 and the ebreak at clock N+3. -/
theorem executedAt_eq (vm : VMem) (N : Nat) (rdf immf : Nat → Nat) (k : Nat) :
    executedAt vm N rdf immf k = min k (N + 3) - min k 2 := by
  induction k with
  | zero => rfl
  | succ j ih =>
      rw [executedAt_succ, ih, emAt_op]
      by_cases h2 : j + 1 ≤ 2
      · simp only [if_pos h2]
        simp
        omega
      · rw [if_neg h2]
        by_cases h3 : N < j + 1 - 3
        · have hnoop : progOp N (j - 2) = .noop := (progOp_noop_iff N _).2 (by omega)
          simp [hnoop]
          omega
        · have hnoop : progOp N (j - 2) ≠ .noop := by
            rw [Ne, progOp_noop_iff]
            omega
          simp [hnoop]
          omega

/-- The fuelled pipeline run from any point of the closed-form trajectory
reaches the final state at clock N+5 whenever the fuel suffices. -/
theorem pipeRun_stateAt (dhp : DataHazardPolicy) (cp : ControlPolicy) (vm : VMem)
    (pp : PredictPolicy) (N : Nat) (rdf immf : Nat → Nat)
    (Haddi : ∀ i, i < N → ∀ pc,
      inst_interpret pc (fetch_inst_pipeline vm (4 * i)) =
        .ok (addiLatch pc (fetch_inst_pipeline vm (4 * i)) (rdf i) (immf i)))
    (Hebr : ∀ pc,
      inst_interpret pc (fetch_inst_pipeline vm (4 * N)) =
        .ok (ebreakLatch pc (fetch_inst_pipeline vm (4 * N))))
    (Hpad : ∀ i, N < i → fetch_inst_pipeline vm (4 * i) = 0)
    (hbound : 4 * (N + 6) < 2 ^ 64) :
    ∀ m k, k ≤ N + 5 → N + 5 ≤ k + m →
      pipeRun dhp cp m (stateAt vm pp N rdf immf k) =
        .ok (stateAt vm pp N rdf immf (N + 5)) := by
  intro m
  induction m with
  | zero =>
      intro k hk1 hk2
      have hke : k = N + 5 := by omega
      subst hke
      rfl
  | succ j ih =>
      intro k hk1 hk2
      by_cases hk : k = N + 5
      · subst hk
        have hr : runningAt vm N rdf immf (N + 5) = false := by
          rw [runningAt_eq]
          simp
        have hr2 : (stateAt vm pp N rdf immf (N + 5)).running = false := hr
        simp [pipeRun, hr2]
      · have hr : (stateAt vm pp N rdf immf k).running = true := by
          show runningAt vm N rdf immf k = true
          rw [runningAt_eq]
          simp [hk]
        have hstep := stateAt_step dhp cp vm pp N rdf immf Haddi Hebr Hpad hbound k
          (by omega)
        simp only [pipeRun, hr, if_true, hstep]
        exact ih (k + 1) (by omega) (by omega)

/-- The closed-form trajectory starts at the reset state with entry 0. -/
theorem stateAt_zero (vm : VMem) (pp : PredictPolicy) (N : Nat)
    (rdf immf : Nat → Nat) :
    stateAt vm pp N rdf immf 0 = initPipeState vm pp 0 := rfl

/-- A memory region whose bytes are all zero reads as zero. -/
theorem hostReadBytes_zero (m : Nat → Nat) :
    ∀ (nb pos : Nat), (∀ j, pos ≤ j → j < pos + nb → m j = 0) →
      hostReadBytes m pos nb = 0
  | 0, _, _ => rfl
  | n + 1, pos, h => by
      rw [hostReadBytes, h pos (Nat.le_refl _) (by omega),
        hostReadBytes_zero m n (pos + 1) (fun j h1 h2 => h j (by omega) (by omega))]
      rfl

/-- C6: a pipelined run of N hazard-free `addi xk, x0, imm` instructions
followed by `ebreak` (and zero padding) completes, under every data-hazard
and control policy and both predictors, with `clock = N + 5` (N plus the
pipeline fill of 4 plus 1 for the ebreak) and
`executed_inst_count = N + 1`, with no recorded hazards; and the
multi-cycle charge block adds 1 extra cycle per mul-family instruction
leaving EX, 39 per div-family, 0 for a rem-family instruction whose
matching div on the same (rs1, rs2) is simultaneously leaving MEM (39
total for the pair), and 39 for an unpaired rem. -/
theorem pipelined_addi_program_cycle_accounting :
    (∀ (dhp : DataHazardPolicy) (cp : ControlPolicy) (pp : PredictPolicy)
        (vm : VMem) (N : Nat) (rdf immf : Nat → Nat),
      (∀ i, i < N → ∀ pc,
        inst_interpret pc (fetch_inst_pipeline vm (4 * i)) =
          .ok (addiLatch pc (fetch_inst_pipeline vm (4 * i)) (rdf i) (immf i))) →
      (∀ pc,
        inst_interpret pc (fetch_inst_pipeline vm (4 * N)) =
          .ok (ebreakLatch pc (fetch_inst_pipeline vm (4 * N)))) →
      (∀ i, N < i → fetch_inst_pipeline vm (4 * i) = 0) →
      4 * (N + 6) < 2 ^ 64 →
      ∀ fuel, N + 5 ≤ fuel →
        ∃ sFin, pipeRun dhp cp fuel (initPipeState vm pp 0) = .ok sFin ∧
          sFin.clock = N + 5 ∧
          sFin.executed_inst_count = N + 1 ∧
          sFin.running = false ∧
          sFin.data_hazard_count = 0 ∧
          sFin.control_hazard_count = 0) ∧
    (∀ (op : Inst64) (a b : Nat) (op2 : Inst64) (c d : Nat),
      (op = .mul ∨ op = .mulh ∨ op = .mulhsu ∨ op = .mulhu ∨ op = .mulw) →
      extra_exec_cycles op a b op2 c d = 1) ∧
    (∀ (op : Inst64) (a b : Nat) (op2 : Inst64) (c d : Nat),
      (op = .div ∨ op = .divw ∨ op = .divu ∨ op = .divuw) →
      extra_exec_cycles op a b op2 c d = 39) ∧
    (∀ a b : Nat,
      extra_exec_cycles .rem a b .div a b = 0 ∧
      extra_exec_cycles .remw a b .divw a b = 0 ∧
      extra_exec_cycles .remu a b .divu a b = 0 ∧
      extra_exec_cycles .remuw a b .divuw a b = 0) ∧
    (∀ (a b : Nat) (op2 : Inst64) (c d : Nat),
      ¬(op2 = .div ∧ a = c ∧ b = d) → extra_exec_cycles .rem a b op2 c d = 39) := by
  refine ⟨?_, ?_, ?_, ?_, ?_⟩
  · intro dhp cp pp vm N rdf immf Haddi Hebr Hpad hbound fuel hfuel
    refine ⟨stateAt vm pp N rdf immf (N + 5), ?_, rfl, ?_, ?_, rfl, rfl⟩
    · rw [← stateAt_zero vm pp N rdf immf]
      exact pipeRun_stateAt dhp cp vm pp N rdf immf Haddi Hebr Hpad hbound fuel 0
        (by omega) (by omega)
    · show executedAt vm N rdf immf (N + 5) = N + 1
      rw [executedAt_eq]
      omega
    · show runningAt vm N rdf immf (N + 5) = false
      rw [runningAt_eq]
      simp
  · rintro op a b op2 c d (h | h | h | h | h) <;> subst h <;> rfl
  · rintro op a b op2 c d (h | h | h | h) <;> subst h <;> rfl
  · intro a b
    refine ⟨?_, ?_, ?_, ?_⟩ <;> simp [extra_exec_cycles]
  · intro a b op2 c d hne
    simp [extra_exec_cycles, hne]

/-- Two-instruction witness program: `addi x1, x0, 7; ebreak`, loaded at
base address 0. -/
def c6vm : VMem :=
  { bytes := fun a =>
      if a = 0 then 0x93 else if a = 2 then 0x70
      else if a = 4 then 0x73 else if a = 6 then 0x10 else 0
    ld_start := 0
    size := 0x100 }

set_option maxHeartbeats 2000000 in
theorem pipelined_addi_program_cycle_accounting_witness :
    ∃ sFin,
      pipeRun .naiveStall .allStall 10 (initPipeState c6vm .twoBitsPredict 0) =
        .ok sFin ∧
      sFin.clock = 6 ∧ sFin.executed_inst_count = 2 ∧ sFin.running = false ∧
      sFin.data_hazard_count = 0 ∧ sFin.control_hazard_count = 0 := by
  have h := pipelined_addi_program_cycle_accounting.1 .naiveStall .allStall
    .twoBitsPredict c6vm 1 (fun _ => 1) (fun _ => 7)
    (by
      intro i hi pc
      have hi0 : i = 0 := by omega
      subst hi0
      rfl)
    (fun pc => rfl)
    (by
      intro i hi
      show hostReadBytes c6vm.bytes (4 * i - 0) 4 = 0
      refine hostReadBytes_zero _ 4 _ (fun j h1 h2 => ?_)
      show (if j = 0 then (0x93 : Nat) else if j = 2 then 0x70
        else if j = 4 then 0x73 else if j = 6 then 0x10 else 0) = 0
      rw [if_neg (by omega), if_neg (by omega), if_neg (by omega), if_neg (by omega)])
    (by norm_num)
    10 (by omega)
  obtain ⟨s, h1, h2, h3, h4, h5, h6⟩ := h
  exact ⟨s, h1, by omega, by omega, h4, h5, h6⟩

end RVE
